import Mathlib

/-!
# OmapLayer: stereoscopic (S3D) layer of the OMAP SurfaceFlinger

A shallow embedding of `services/surfaceflinger/OmapLayer.cpp`.

* The three enumerations are inductive types.  Their integer values and the
  mask / shift constants of the hardware-composer flags word are declared in
  headers that are not among the sources, so they are a parameter
  (`S3DConsts`) of the functions that use them.
* `uint32_t` words are natural numbers, reduced modulo `2 ^ 32` where the
  code can leave the word width.
* Calls that leave the layer (OpenGL ES, `S3DSurfaceFlinger`, the base
  classes) are recorded, in order, as a list of events; the state of
  `S3DSurfaceFlinger` that the layer reads back is threaded explicitly.
* The `GLfloat` constants `0`, `0.5f` and `1` of the texture coordinates are
  exactly representable and are modelled as rationals.
-/

namespace Omap

/-! ## Enumerations -/

/-- How a source texture packs the two eye images (`S3DLayoutType`). -/
inductive S3DLayoutType
  | eMono
  | eSideBySide
  | eTopBottom
  | eRowInterleaved
  | eColInterleaved
  deriving DecidableEq, Repr

/-- Which half of a packed texture comes first (`S3DLayoutOrder`). -/
inductive S3DLayoutOrder
  | eLeftViewFirst
  | eRightViewFirst
  deriving DecidableEq, Repr

/-- Which views a layer contributes (`S3DRenderMode`). -/
inductive S3DRenderMode
  | eRenderLeft
  | eRenderRight
  | eRenderStereo
  deriving DecidableEq, Repr

/-- The eye being drawn (`S3DSurfaceFlinger::eDrawingS3DLeft`, `eDrawingS3DRight`). -/
inductive S3DDrawState
  | eDrawingS3DLeft
  | eDrawingS3DRight
  deriving DecidableEq, Repr

/-- Modelled from the spec: the output format of the display pipeline, the
state behind `isDefaultRender()`, `isFramePackingRender()`,
`isInterleaveRender()`, `isAnaglyphRender()` and `isMonoRender()` of
`S3DSurfaceFlinger`, whose declaration is not among the sources. -/
inductive OutputFormat
  | Default
  | FramePacking
  | Interleave
  | Anaglyph
  | Mono
  deriving DecidableEq, Repr

/-! ## Constants of the absent headers -/

/-- The integer values of the enumerators and the mask / shift pairs of the
three ranges of `hwc_layer_t::flags`.  `OmapLayer.cpp` names them but their
values are declared elsewhere. -/
structure S3DConsts where
  typeValue : S3DLayoutType → Nat
  orderValue : S3DLayoutOrder → Nat
  modeValue : S3DRenderMode → Nat
  S3DLayoutTypeMask : Nat
  S3DLayoutTypeShift : Nat
  S3DLayoutOrderMask : Nat
  S3DLayoutOrderShift : Nat
  S3DRenderModeMask : Nat
  S3DRenderModeShift : Nat

/-- A concrete assignment of the constants, used to evaluate the functions on
concrete inputs: enumerators numbered in declaration order, the layout type in
bits 16..23 and the view order in bits 24..31 (the bytes `lockPageFlip`
reads), the render mode in bits 8..9. -/
def sampleConsts : S3DConsts where
  typeValue := fun t =>
    match t with
    | .eMono => 0
    | .eSideBySide => 1
    | .eTopBottom => 2
    | .eRowInterleaved => 3
    | .eColInterleaved => 4
  orderValue := fun o =>
    match o with
    | .eLeftViewFirst => 0
    | .eRightViewFirst => 1
  modeValue := fun m =>
    match m with
    | .eRenderLeft => 0
    | .eRenderRight => 1
    | .eRenderStereo => 2
  S3DLayoutTypeMask := 0xFF0000
  S3DLayoutTypeShift := 16
  S3DLayoutOrderMask := 0xFF000000
  S3DLayoutOrderShift := 24
  S3DRenderModeMask := 0x300
  S3DRenderModeShift := 8

/-! ## Geometry and OpenGL ES commands -/

/-- A rectangle of a clip region (`Rect`), in integer pixels. -/
structure Rect where
  left : Int
  top : Int
  right : Int
  bottom : Int
  deriving DecidableEq, Repr

/-- Width of a rectangle: `Rect::width()`. -/
def Rect.width (r : Rect) : Int := r.right - r.left

/-- Height of a rectangle: `Rect::height()`. -/
def Rect.height (r : Rect) : Int := r.bottom - r.top

/-- A clip region, as the sequence of rectangles its iterator yields. -/
abbrev Region := List Rect

/-- One entry of the `texCoords` array. -/
structure TexCoords where
  u : ℚ
  v : ℚ
  deriving DecidableEq

/-- Capabilities passed to `glEnable` / `glDisable`. -/
inductive GLCap
  | GL_STENCIL_TEST
  | GL_BLEND
  deriving DecidableEq, Repr

/-- Filter parameters passed to `glTexParameterx`. -/
inductive GLTexFilter
  | GL_TEXTURE_MAG_FILTER
  | GL_TEXTURE_MIN_FILTER
  deriving DecidableEq, Repr

/-- Source blend factors the layer uses. -/
inductive GLBlendSrc
  | GL_ONE
  | GL_SRC_ALPHA
  deriving DecidableEq, Repr

/-- Texture environment modes the layer uses. -/
inductive GLTexEnvMode
  | GL_MODULATE
  | GL_REPLACE
  deriving DecidableEq, Repr

/-- An argument of `glColor4f`: the constant `1`, or the product
`s.alpha * (1.0f/255.0f)` kept symbolic in the alpha byte. -/
inductive GLColorArg
  | one
  | alphaOver255 (alpha : Nat)
  deriving DecidableEq, Repr

/-- The OpenGL ES calls made by `OmapLayer.cpp`, with the arguments that vary. -/
inductive GLCmd
  /-- Call `glTexParameterx(GL_TEXTURE_EXTERNAL_OES, pname, GL_LINEAR)`. -/
  | glTexParameterx (pname : GLTexFilter)
  | glEnable (cap : GLCap)
  | glDisable (cap : GLCap)
  | glColorMask (r g b a : Bool)
  | glColor4f (r g b a : GLColorArg)
  /-- Call `glBlendFunc(src, GL_ONE_MINUS_SRC_ALPHA)`. -/
  | glBlendFunc (src : GLBlendSrc)
  /-- Call `glTexEnvx(GL_TEXTURE_ENV, GL_TEXTURE_ENV_MODE, mode)`. -/
  | glTexEnvx (mode : GLTexEnvMode)
  /-- Call `glEnableClientState(GL_TEXTURE_COORD_ARRAY)`. -/
  | glEnableClientState
  /-- Call `glDisableClientState(GL_TEXTURE_COORD_ARRAY)`. -/
  | glDisableClientState
  /-- Call `glVertexPointer(2, GL_FLOAT, 0, mVertices)`. -/
  | glVertexPointer
  /-- Call `glTexCoordPointer(2, GL_FLOAT, 0, texCoords)`, with the array read. -/
  | glTexCoordPointer (texCoords : List TexCoords)
  | glScissor (x y w h : Int)
  /-- Call `glDrawArrays(GL_TRIANGLE_FAN, 0, 4)`. -/
  | glDrawArrays
  deriving DecidableEq

/-- The calls of an `OmapLayer` method that leave the layer, in order. -/
inductive Ev
  /-- An OpenGL ES call made directly by the method. -/
  | gl (c : GLCmd)
  /-- Call `mFlingerS3D->setDrawState(e)`. -/
  | setDrawState (e : S3DDrawState)
  /-- Call `mFlingerS3D->addS3DLayer_l(this)`. -/
  | addS3DLayer_l (layer : Nat)
  /-- Call `mFlingerS3D->removeS3DLayer_l(this)`. -/
  | removeS3DLayer_l (layer : Nat)
  /-- Call `requestTransaction()`. -/
  | requestTransaction
  /-- Call `Layer::onRemoved()`. -/
  | layerOnRemoved
  /-- Call `LayerBase::drawWithOpenGL(clip)`, the ordinary single-pass draw. -/
  | layerBaseDraw (clip : Region)
  /-- One call of the two-argument `drawWithOpenGL(clip, drawFirstHalf)`, with
  the OpenGL ES calls it made. -/
  | drawPass (drawFirstHalf : Bool) (body : List GLCmd)
  deriving DecidableEq

/-! ## State -/

/-- Modelled from the spec: the state of `S3DSurfaceFlinger` (GlobalStereoState)
that the layer reads and changes; the class is declared in
`S3DSurfaceFlinger.h`, which is not among the sources. -/
structure S3DSurfaceFlinger where
  outputFormat : OutputFormat
  currentEye : S3DDrawState
  activeLayers : List Nat
  deriving DecidableEq

/-- The members of an `OmapLayer` (its own and the inherited ones that
`OmapLayer.cpp` reads or writes). -/
structure OmapLayer where
  /-- Identity of the layer (`this`). -/
  id : Nat
  mType : S3DLayoutType
  mViewOrder : S3DLayoutOrder
  mRenderMode : S3DRenderMode
  /-- The layout word `mCurrentLayout` of `Layer`, 32 bits. -/
  mCurrentLayout : Nat
  /-- The counter `mCurrentState.sequence`, 32 bits. -/
  sequence : Nat
  /-- The byte `drawingState().alpha`. -/
  alpha : Nat
  mPremultipliedAlpha : Bool
  /-- The value of `isOpaque()`. -/
  isOpaque : Bool
  deriving DecidableEq

/-- The stored stereo configuration of a layer. -/
def OmapLayer.config (self : OmapLayer) : S3DLayoutType × S3DLayoutOrder × S3DRenderMode :=
  (self.mType, self.mViewOrder, self.mRenderMode)

/-- The constructor: `mType(eMono)`, `mViewOrder(eLeftViewFirst)`,
`mRenderMode(eRenderStereo)`; the inherited members are given. -/
def OmapLayer.new (id mCurrentLayout sequence alpha : Nat) (premultiplied isOpaque : Bool) :
    OmapLayer where
  id := id
  mType := .eMono
  mViewOrder := .eLeftViewFirst
  mRenderMode := .eRenderStereo
  mCurrentLayout := mCurrentLayout
  sequence := sequence
  alpha := alpha
  mPremultipliedAlpha := premultiplied
  isOpaque := isOpaque

/-! ## S3DSurfaceFlinger, as the layer uses it -/

/-- Modelled from the spec: `isDefaultRender()`, absent from the sources, a
pure predicate over the output format. -/
def S3DSurfaceFlinger.isDefaultRender (f : S3DSurfaceFlinger) : Bool :=
  f.outputFormat == .Default

/-- Modelled from the spec: `isFramePackingRender()`, absent from the sources,
a pure predicate over the output format. -/
def S3DSurfaceFlinger.isFramePackingRender (f : S3DSurfaceFlinger) : Bool :=
  f.outputFormat == .FramePacking

/-- Modelled from the spec: `isInterleaveRender()`, absent from the sources, a
pure predicate over the output format. -/
def S3DSurfaceFlinger.isInterleaveRender (f : S3DSurfaceFlinger) : Bool :=
  f.outputFormat == .Interleave

/-- Modelled from the spec: `isAnaglyphRender()`, absent from the sources, a
pure predicate over the output format. -/
def S3DSurfaceFlinger.isAnaglyphRender (f : S3DSurfaceFlinger) : Bool :=
  f.outputFormat == .Anaglyph

/-- Modelled from the spec: `isMonoRender()`, absent from the sources, a pure
predicate over the output format. -/
def S3DSurfaceFlinger.isMonoRender (f : S3DSurfaceFlinger) : Bool :=
  f.outputFormat == .Mono

/-- Modelled from the spec: `isDrawingLeft()`, absent from the sources, a pure
predicate over the current eye. -/
def S3DSurfaceFlinger.isDrawingLeft (f : S3DSurfaceFlinger) : Bool :=
  f.currentEye == .eDrawingS3DLeft

/-- Modelled from the spec: `setDrawState(eye)`, absent from the sources,
which transitions the current eye and nothing else. -/
def S3DSurfaceFlinger.setDrawState (f : S3DSurfaceFlinger) (e : S3DDrawState) :
    S3DSurfaceFlinger :=
  { f with currentEye := e }

/-- Modelled from the spec: `addS3DLayer_l(layer)`, absent from the sources,
an idempotent insertion into the set of active layers. -/
def S3DSurfaceFlinger.addS3DLayer_l (f : S3DSurfaceFlinger) (layer : Nat) :
    S3DSurfaceFlinger :=
  { f with activeLayers := if layer ∈ f.activeLayers then f.activeLayers
                           else layer :: f.activeLayers }

/-- Modelled from the spec: `removeS3DLayer_l(layer)`, absent from the
sources, an idempotent deletion from the set of active layers. -/
def S3DSurfaceFlinger.removeS3DLayer_l (f : S3DSurfaceFlinger) (layer : Nat) :
    S3DSurfaceFlinger :=
  { f with activeLayers := f.activeLayers.filter (fun l => l != layer) }

/-- What the two-argument `drawWithOpenGL` takes from its surroundings: the
framebuffer height `hw.getHeight()` and `S3DSurfaceFlinger::modifyCoords`,
which rewrites a scissor rectangle `(x, y, w, h)` in place and is not among the
sources. -/
structure DrawEnv where
  fbHeight : Nat
  modifyCoords : S3DSurfaceFlinger → Int × Int × Int × Int → Int × Int × Int × Int

/-! ## Predicates of `OmapLayer.h` -/

/-- Modelled from the spec: `isS3D()`, declared in `OmapLayer.h` which is not
among the sources; a layer is stereoscopic exactly when its layout type is not
`Mono`. -/
def OmapLayer.isS3D (self : OmapLayer) : Bool :=
  self.mType != .eMono

/-- Modelled from the spec: `isDrawingFirstHalf(view)`, declared in
`OmapLayer.h` which is not among the sources; the view order alone decides
which eye is the first half, so it holds exactly when `view` is the eye the
view order places first. -/
def OmapLayer.isDrawingFirstHalf (self : OmapLayer) (view : S3DRenderMode) : Bool :=
  match self.mViewOrder, view with
  | .eLeftViewFirst, .eRenderLeft => true
  | .eRightViewFirst, .eRenderRight => true
  | _, _ => false

/-! ## 32-bit words -/

/-- The complement `~m` of a constant, as it acts on a `uint32_t`. -/
def not32 (m : Nat) : Nat := (2 ^ 32 - 1) ^^^ (m % 2 ^ 32)

/-- Conversion of an integer to `GLint` (two's complement, 32 bits). -/
def toGLint (z : Int) : Int := (z + 2 ^ 31) % 2 ^ 32 - 2 ^ 31

/-! ## The methods of `OmapLayer.cpp` -/

/-- `OmapLayer::setConfig(type, order, mode)`. -/
def OmapLayer.setConfig (self : OmapLayer) (type : S3DLayoutType) (order : S3DLayoutOrder)
    (mode : S3DRenderMode) : List Ev × OmapLayer :=
  ([Ev.requestTransaction],
   { self with mType := type, mViewOrder := order, mRenderMode := mode,
               sequence := (self.sequence + 1) % 2 ^ 32 })

/-- `OmapLayer::onRemoved()`. -/
def OmapLayer.onRemoved (self : OmapLayer) (f : S3DSurfaceFlinger) :
    List Ev × S3DSurfaceFlinger :=
  ([Ev.removeS3DLayer_l self.id, Ev.layerOnRemoved], f.removeS3DLayer_l self.id)

/-- `OmapLayer::setGeometry(hwcl)`, on the word `hwcl->flags` that
`Layer::setGeometry(hwcl)` left: each of the three ranges is cleared and then
set, in the order layout type, view order, render mode. -/
def OmapLayer.setGeometry (K : S3DConsts) (self : OmapLayer) (flags : Nat) : Nat :=
  let f1 := flags &&& not32 K.S3DLayoutTypeMask
  let f2 := (f1 ||| (K.typeValue self.mType <<< K.S3DLayoutTypeShift)) % 2 ^ 32
  let f3 := f2 &&& not32 K.S3DLayoutOrderMask
  let f4 := (f3 ||| (K.orderValue self.mViewOrder <<< K.S3DLayoutOrderShift)) % 2 ^ 32
  let f5 := f4 &&& not32 K.S3DRenderModeMask
  (f5 ||| (K.modeValue self.mRenderMode <<< K.S3DRenderModeShift)) % 2 ^ 32

/-- The byte `(mCurrentLayout >> 16) & 0xFF` read by `lockPageFlip`. -/
def s3dTypeByte (mCurrentLayout : Nat) : Nat := (mCurrentLayout >>> 16) &&& 0xFF

/-- The byte `(mCurrentLayout >> 24) & 0xFF` read by `lockPageFlip`. -/
def s3dOrderByte (mCurrentLayout : Nat) : Nat := (mCurrentLayout >>> 24) &&& 0xFF

/-- The first `switch` of `lockPageFlip`: the four accepted case labels give
the layout type with that value, `default` (which returns) gives `none`. -/
def switchLayoutType (K : S3DConsts) (s3d_type : Nat) : Option S3DLayoutType :=
  if s3d_type = K.typeValue .eSideBySide then some .eSideBySide
  else if s3d_type = K.typeValue .eTopBottom then some .eTopBottom
  else if s3d_type = K.typeValue .eRowInterleaved then some .eRowInterleaved
  else if s3d_type = K.typeValue .eColInterleaved then some .eColInterleaved
  else none

/-- The statement under the labels `case eLeftViewFirst:` and
`case eRightViewFirst:` of the second `switch` of `lockPageFlip`: when the
byte is one of the two values, `mViewOrder` is assigned the decoded value.
No `break` follows it. -/
def orderCaseBody (K : S3DConsts) (s3d_order : Nat) (self : OmapLayer) : OmapLayer :=
  if s3d_order = K.orderValue .eLeftViewFirst then
    { self with mViewOrder := .eLeftViewFirst }
  else if s3d_order = K.orderValue .eRightViewFirst then
    { self with mViewOrder := .eRightViewFirst }
  else self

/-- The statement under `default:` of the second `switch` of `lockPageFlip`,
which control reaches from every label: `mViewOrder = eLeftViewFirst`. -/
def orderDefaultBody (self : OmapLayer) : OmapLayer :=
  { self with mViewOrder := .eLeftViewFirst }

/-- `OmapLayer::lockPageFlip(recomputeVisibleRegions)` with `OMAP_ENHANCEMENT`
defined, on the state `Layer::lockPageFlip` left.  The events are the calls
made on `mFlingerS3D`. -/
def OmapLayer.lockPageFlip (K : S3DConsts) (self : OmapLayer) (f : S3DSurfaceFlinger) :
    List Ev × OmapLayer × S3DSurfaceFlinger :=
  let s3d_type := s3dTypeByte self.mCurrentLayout
  let s3d_order := s3dOrderByte self.mCurrentLayout
  let prevType := self.mType
  match switchLayoutType K s3d_type with
  | none => ([], self, f)
  | some t =>
    let self1 := { self with mType := t }
    let self2 := orderDefaultBody (orderCaseBody K s3d_order self1)
    if self2.mType ≠ prevType ∧ self2.mType ≠ .eMono then
      ([Ev.addS3DLayer_l self2.id], self2, f.addS3DLayer_l self2.id)
    else
      ([], self2, f)

/-- The texture coordinates the two-argument `drawWithOpenGL` passes to
`glTexCoordPointer`: the full quad, halved when the layer is stereoscopic
and its layout is top-bottom or side-by-side. -/
def OmapLayer.texCoords (self : OmapLayer) (drawFirstHalf : Bool) : List TexCoords :=
  let t0 : TexCoords := ⟨0, 1⟩
  let t1 : TexCoords := ⟨0, 0⟩
  let t2 : TexCoords := ⟨1, 0⟩
  let t3 : TexCoords := ⟨1, 1⟩
  if self.isS3D then
    if drawFirstHalf then
      match self.mType with
      | .eTopBottom => [t0, { t1 with v := 1/2 }, { t2 with v := 1/2 }, t3]
      | .eSideBySide => [t0, t1, { t2 with u := 1/2 }, { t3 with u := 1/2 }]
      | _ => [t0, t1, t2, t3]
    else
      match self.mType with
      | .eTopBottom => [{ t0 with v := 1/2 }, t1, t2, { t3 with v := 1/2 }]
      | .eSideBySide => [{ t0 with u := 1/2 }, { t1 with u := 1/2 }, t2, t3]
      | _ => [t0, t1, t2, t3]
  else [t0, t1, t2, t3]

/-- The blend and colour set-up at the start of the two-argument
`drawWithOpenGL`. -/
def OmapLayer.blendSetup (self : OmapLayer) : List GLCmd :=
  let src : GLBlendSrc := if self.mPremultipliedAlpha then .GL_ONE else .GL_SRC_ALPHA
  if self.alpha < 0xFF then
    let alpha := GLColorArg.alphaOver255 self.alpha
    [ if self.mPremultipliedAlpha then GLCmd.glColor4f alpha alpha alpha alpha
      else GLCmd.glColor4f .one .one .one alpha,
      .glEnable .GL_BLEND,
      .glBlendFunc src,
      .glTexEnvx .GL_MODULATE ]
  else
    [ GLCmd.glColor4f .one .one .one .one,
      .glTexEnvx .GL_REPLACE ] ++
    (if !self.isOpaque then [GLCmd.glEnable .GL_BLEND, .glBlendFunc src]
     else [GLCmd.glDisable .GL_BLEND])

/-- The body of the `while` loop over the clip region: one scissor rectangle
and one `glDrawArrays` per rectangle. -/
def drawRects (E : DrawEnv) (f : S3DSurfaceFlinger) : Region → List GLCmd
  | [] => []
  | r :: rest =>
    let sy := toGLint ((E.fbHeight : Int) - (r.top + r.height))
    let x := r.left
    let w := r.width
    let h := r.height
    let (x', sy', w', h') := E.modifyCoords f (x, sy, w, h)
    GLCmd.glScissor x' sy' w' h' :: GLCmd.glDrawArrays :: drawRects E f rest

/-- The two-argument `OmapLayer::drawWithOpenGL(clip, drawFirstHalf)`: the
OpenGL ES calls it makes. -/
def OmapLayer.drawWithOpenGL2 (E : DrawEnv) (self : OmapLayer) (f : S3DSurfaceFlinger)
    (clip : Region) (drawFirstHalf : Bool) : List GLCmd :=
  self.blendSetup ++
  [ GLCmd.glEnableClientState,
    .glVertexPointer,
    .glTexCoordPointer (self.texCoords drawFirstHalf) ] ++
  drawRects E f clip ++
  [ GLCmd.glDisableClientState,
    .glDisable .GL_BLEND ]

/-- The one-argument `OmapLayer::drawWithOpenGL(clip)`: its calls, in order,
and the state of `S3DSurfaceFlinger` on return. -/
def OmapLayer.drawWithOpenGL (E : DrawEnv) (self : OmapLayer) (f : S3DSurfaceFlinger)
    (clip : Region) : List Ev × S3DSurfaceFlinger :=
  if f.isDefaultRender || (!self.isS3D && !f.isFramePackingRender) then
    ([Ev.layerBaseDraw clip], f)
  else
    let filter : List Ev :=
      [ .gl (.glTexParameterx .GL_TEXTURE_MAG_FILTER),
        .gl (.glTexParameterx .GL_TEXTURE_MIN_FILTER) ]
    let viewToRender0 : S3DRenderMode :=
      if f.isDrawingLeft then .eRenderLeft else .eRenderRight
    let viewToRender : S3DRenderMode :=
      if self.isS3D && self.mRenderMode != .eRenderStereo
          && self.mRenderMode != viewToRender0 then
        if f.isFramePackingRender || f.isMonoRender then self.mRenderMode
        else viewToRender0
      else viewToRender0
    let firstState : List Ev :=
      if self.isS3D && f.isInterleaveRender && self.mRenderMode == .eRenderStereo then
        [.gl (.glEnable .GL_STENCIL_TEST)]
      else if self.isS3D && f.isAnaglyphRender && self.mRenderMode == .eRenderStereo then
        [.gl (.glColorMask true false false true)]
      else []
    let firstHalf := self.isDrawingFirstHalf viewToRender
    let first : List Ev := [.drawPass firstHalf (self.drawWithOpenGL2 E f clip firstHalf)]
    let second : List Ev × S3DSurfaceFlinger :=
      if self.isS3D && self.mRenderMode == .eRenderStereo
          && !f.isFramePackingRender && !f.isMonoRender then
        let fR := f.setDrawState .eDrawingS3DRight
        let mask : List Ev :=
          if fR.isAnaglyphRender then [.gl (.glColorMask false true true true)] else []
        let half := self.isDrawingFirstHalf .eRenderRight
        ([Ev.setDrawState .eDrawingS3DRight] ++ mask ++
           [.drawPass half (self.drawWithOpenGL2 E fR clip half)] ++
           [Ev.setDrawState .eDrawingS3DLeft],
         fR.setDrawState .eDrawingS3DLeft)
      else ([], f)
    (filter ++ firstState ++ first ++ second.1 ++
       [.gl (.glColorMask true true true true), .gl (.glDisable .GL_STENCIL_TEST)],
     second.2)

/-! ## Well-formed constants and sample inputs -/

/-- The three ranges are in order: each mask lies in the 32-bit word, the
masks are pairwise disjoint, and every enumerator value, shifted to its range,
lies inside the mask of that range. -/
structure S3DConsts.RangesOk (K : S3DConsts) : Prop where
  typeMask_lt : K.S3DLayoutTypeMask < 2 ^ 32
  orderMask_lt : K.S3DLayoutOrderMask < 2 ^ 32
  modeMask_lt : K.S3DRenderModeMask < 2 ^ 32
  type_order : K.S3DLayoutTypeMask &&& K.S3DLayoutOrderMask = 0
  type_mode : K.S3DLayoutTypeMask &&& K.S3DRenderModeMask = 0
  order_mode : K.S3DLayoutOrderMask &&& K.S3DRenderModeMask = 0
  type_fits : ∀ t, (K.typeValue t <<< K.S3DLayoutTypeShift) &&& K.S3DLayoutTypeMask
      = K.typeValue t <<< K.S3DLayoutTypeShift
  order_fits : ∀ o, (K.orderValue o <<< K.S3DLayoutOrderShift) &&& K.S3DLayoutOrderMask
      = K.orderValue o <<< K.S3DLayoutOrderShift
  mode_fits : ∀ m, (K.modeValue m <<< K.S3DRenderModeShift) &&& K.S3DRenderModeMask
      = K.modeValue m <<< K.S3DRenderModeShift

/-- A layer with the given configuration and layout word (identity 7, full
alpha, not premultiplied, opaque). -/
def sampleLayer (t : S3DLayoutType) (o : S3DLayoutOrder) (m : S3DRenderMode)
    (mCurrentLayout : Nat) : OmapLayer :=
  { OmapLayer.new 7 mCurrentLayout 0 255 false true with
    mType := t, mViewOrder := o, mRenderMode := m }

/-- A compositor state with the given output format and eye, no active layer. -/
def sampleFlinger (fmt : OutputFormat) (eye : S3DDrawState) : S3DSurfaceFlinger :=
  ⟨fmt, eye, []⟩

/-- The flags round trip: `src` writes its configuration into the word `flags`
(`setGeometry`), the word becomes the layout word of `prior`, and `prior`
decodes it (`lockPageFlip`); the result is the layer `prior` after the call. -/
def roundTrip (K : S3DConsts) (src prior : OmapLayer) (flags : Nat) (f : S3DSurfaceFlinger) :
    OmapLayer :=
  ({ prior with mCurrentLayout := src.setGeometry K flags }.lockPageFlip K f).2.1

/-! ## Observing a trace -/

/-- The part of the rendering state the stereo branching touches: the stencil
test, the colour mask `(r, g, b, a)`, the eye being drawn, and the
texture-coordinate array last handed to `glTexCoordPointer`. -/
structure RenderState where
  stencilTest : Bool
  colorMask : Bool × Bool × Bool × Bool
  currentEye : S3DDrawState
  texCoords : List TexCoords
  deriving DecidableEq

/-- Effect of one OpenGL ES call on the tracked state. -/
def RenderState.gl (s : RenderState) : GLCmd → RenderState
  | .glEnable .GL_STENCIL_TEST => { s with stencilTest := true }
  | .glDisable .GL_STENCIL_TEST => { s with stencilTest := false }
  | .glColorMask r g b a => { s with colorMask := (r, g, b, a) }
  | .glTexCoordPointer tc => { s with texCoords := tc }
  | _ => s

/-- Effect of one event on the tracked state.  The base-class calls are taken
to leave the tracked state alone. -/
def RenderState.step (s : RenderState) : Ev → RenderState
  | .gl c => s.gl c
  | .setDrawState e => { s with currentEye := e }
  | .drawPass _ body => body.foldl RenderState.gl s
  | _ => s

/-- The tracked state after a trace. -/
def RenderState.run (s : RenderState) (t : List Ev) : RenderState :=
  t.foldl RenderState.step s

/-- The draw passes of a trace (calls of the two-argument `drawWithOpenGL`),
each with the tracked state it starts in and its `drawFirstHalf` argument. -/
def drawPasses (s : RenderState) : List Ev → List (RenderState × Bool)
  | [] => []
  | .drawPass h body :: t => (s, h) :: drawPasses (s.step (.drawPass h body)) t
  | e :: t => drawPasses (s.step e) t

/-- The tracked states in which the `glDrawArrays` calls of a command list
are issued. -/
def glDraws (s : RenderState) : List GLCmd → List RenderState
  | [] => []
  | .glDrawArrays :: t => s :: glDraws s t
  | c :: t => glDraws (s.gl c) t

/-- The tracked states in which the `glDrawArrays` calls of a trace are
issued. -/
def drawCalls (s : RenderState) : List Ev → List RenderState
  | [] => []
  | .drawPass h body :: t => glDraws s body ++ drawCalls (s.step (.drawPass h body)) t
  | .gl c :: t => glDraws s [c] ++ drawCalls (s.step (.gl c)) t
  | e :: t => drawCalls (s.step e) t

/-- The extent `((uMin, uMax), (vMin, vMax))` of a texture-coordinate array. -/
def texSpan : List TexCoords → (ℚ × ℚ) × (ℚ × ℚ)
  | [] => ((0, 0), (0, 0))
  | c :: cs =>
    cs.foldl (fun acc d => ((min acc.1.1 d.u, max acc.1.2 d.u), (min acc.2.1 d.v, max acc.2.2 d.v)))
      ((c.u, c.u), (c.v, c.v))

/-- The red (left-eye) colour mask `(GL_TRUE, GL_FALSE, GL_FALSE, GL_TRUE)`. -/
def maskRed : Bool × Bool × Bool × Bool := (true, false, false, true)

/-- The cyan (right-eye) colour mask `(GL_FALSE, GL_TRUE, GL_TRUE, GL_TRUE)`. -/
def maskCyan : Bool × Bool × Bool × Bool := (false, true, true, true)

/-- The all-channels colour mask. -/
def maskAll : Bool × Bool × Bool × Bool := (true, true, true, true)

/-- The identity `modifyCoords`, framebuffer height 480. -/
def sampleEnv : DrawEnv := ⟨480, fun _ c => c⟩

/-- All OpenGL ES calls of a trace, those of the draw passes included. -/
def glCalls : List Ev → List GLCmd
  | [] => []
  | .gl c :: t => c :: glCalls t
  | .drawPass _ body :: t => body ++ glCalls t
  | _ :: t => glCalls t

/-- The arrays handed to `glTexCoordPointer` by a command list. -/
def texCoordArrays : List GLCmd → List (List TexCoords)
  | [] => []
  | .glTexCoordPointer tc :: t => tc :: texCoordArrays t
  | _ :: t => texCoordArrays t

/-- The closed rectangle of the texture plane with the given extent. -/
def spanRect (sp : (ℚ × ℚ) × (ℚ × ℚ)) : Set (ℝ × ℝ) :=
  {p | (sp.1.1 : ℝ) ≤ p.1 ∧ p.1 ≤ (sp.1.2 : ℝ) ∧ (sp.2.1 : ℝ) ≤ p.2 ∧ p.2 ≤ (sp.2.2 : ℝ)}

/-- The unit square of the texture plane. -/
def unitSquare : Set (ℝ × ℝ) := {p | 0 ≤ p.1 ∧ p.1 ≤ 1 ∧ 0 ≤ p.2 ∧ p.2 ≤ 1}

/-! ## The steps of the one-argument `drawWithOpenGL` -/

/-- The condition of the first `if` of `drawWithOpenGL(clip)`: no custom
drawing is needed. -/
def OmapLayer.bypass (self : OmapLayer) (f : S3DSurfaceFlinger) : Bool :=
  f.isDefaultRender || (!self.isS3D && !f.isFramePackingRender)

/-- The initial value of `viewToRender`:
`mFlingerS3D->isDrawingLeft() ? eRenderLeft : eRenderRight`. -/
def S3DSurfaceFlinger.defaultView (f : S3DSurfaceFlinger) : S3DRenderMode :=
  if f.isDrawingLeft then .eRenderLeft else .eRenderRight

/-- The value of `viewToRender` when the first draw is made. -/
def OmapLayer.viewToRender (self : OmapLayer) (f : S3DSurfaceFlinger) : S3DRenderMode :=
  if self.isS3D && self.mRenderMode != .eRenderStereo
      && self.mRenderMode != f.defaultView then
    if f.isFramePackingRender || f.isMonoRender then self.mRenderMode
    else f.defaultView
  else f.defaultView

/-- The calls made between the eye selection and the first draw: the stencil
test for interleave output, the red mask for anaglyph output. -/
def OmapLayer.firstState (self : OmapLayer) (f : S3DSurfaceFlinger) : List Ev :=
  if self.isS3D && f.isInterleaveRender && self.mRenderMode == .eRenderStereo then
    [.gl (.glEnable .GL_STENCIL_TEST)]
  else if self.isS3D && f.isAnaglyphRender && self.mRenderMode == .eRenderStereo then
    [.gl (.glColorMask true false false true)]
  else []

/-- The condition under which `drawWithOpenGL(clip)` draws the right view
itself. -/
def OmapLayer.drawsSecond (self : OmapLayer) (f : S3DSurfaceFlinger) : Bool :=
  self.isS3D && self.mRenderMode == .eRenderStereo
    && !f.isFramePackingRender && !f.isMonoRender

/-- The calls of the block that draws the right view. -/
def OmapLayer.secondDraw (E : DrawEnv) (self : OmapLayer) (f : S3DSurfaceFlinger)
    (clip : Region) : List Ev :=
  [Ev.setDrawState .eDrawingS3DRight] ++
  (if (f.setDrawState .eDrawingS3DRight).isAnaglyphRender then
     [Ev.gl (.glColorMask false true true true)] else []) ++
  [.drawPass (self.isDrawingFirstHalf .eRenderRight)
     (self.drawWithOpenGL2 E (f.setDrawState .eDrawingS3DRight) clip
       (self.isDrawingFirstHalf .eRenderRight))] ++
  [Ev.setDrawState .eDrawingS3DLeft]

/-- The two `glTexParameterx` calls that start the custom drawing. -/
def filterCalls : List Ev :=
  [ .gl (.glTexParameterx .GL_TEXTURE_MAG_FILTER),
    .gl (.glTexParameterx .GL_TEXTURE_MIN_FILTER) ]

/-- The two calls that end the custom drawing: colour mask to all channels,
stencil test off. -/
def restoreCalls : List Ev :=
  [ .gl (.glColorMask true true true true), .gl (.glDisable .GL_STENCIL_TEST) ]

/-! ## More observations of a trace -/

/-- The `drawFirstHalf` arguments of the draw passes of a trace, in order. -/
def passHalves : List Ev → List Bool
  | [] => []
  | .drawPass h _ :: t => h :: passHalves t
  | _ :: t => passHalves t

/-- The arguments of the `setDrawState` calls of a trace, in order. -/
def setDrawStateCalls : List Ev → List S3DDrawState
  | [] => []
  | .setDrawState e :: t => e :: setDrawStateCalls t
  | _ :: t => setDrawStateCalls t

/-- The `setDrawState` calls (`some eye`) and draw passes (`none`) of a trace,
in order. -/
def eyeSchedule : List Ev → List (Option S3DDrawState)
  | [] => []
  | .setDrawState e :: t => some e :: eyeSchedule t
  | .drawPass _ _ :: t => none :: eyeSchedule t
  | _ :: t => eyeSchedule t

/-- Every `setDrawState(Right)` of a schedule is followed by exactly one draw
pass and then `setDrawState(Left)`. -/
def rightsRestored : List (Option S3DDrawState) → Bool
  | [] => true
  | some .eDrawingS3DRight :: none :: some .eDrawingS3DLeft :: t => rightsRestored t
  | some .eDrawingS3DRight :: _ => false
  | _ :: t => rightsRestored t

/-- The state of `S3DSurfaceFlinger` after one call recorded in a trace. -/
def S3DSurfaceFlinger.apply (f : S3DSurfaceFlinger) : Ev → S3DSurfaceFlinger
  | .setDrawState e => f.setDrawState e
  | .addS3DLayer_l l => f.addS3DLayer_l l
  | .removeS3DLayer_l l => f.removeS3DLayer_l l
  | _ => f

/-- The state of `S3DSurfaceFlinger` after the calls of a trace. -/
def S3DSurfaceFlinger.replay (f : S3DSurfaceFlinger) (t : List Ev) : S3DSurfaceFlinger :=
  t.foldl S3DSurfaceFlinger.apply f

/-! ## Sequences of operations on one layer -/

/-- An operation on the layer: `setConfig` with its arguments, `lockPageFlip`
with the layout word `Layer::lockPageFlip` left in `mCurrentLayout`, or
`onRemoved`. -/
inductive LayerOp
  | setConfig (type : S3DLayoutType) (order : S3DLayoutOrder) (mode : S3DRenderMode)
  | lockPageFlip (mCurrentLayout : Nat)
  | onRemoved
  deriving DecidableEq

/-- The layer and `S3DSurfaceFlinger` after one operation. -/
def LayerOp.run (K : S3DConsts) (op : LayerOp) (w : OmapLayer × S3DSurfaceFlinger) :
    OmapLayer × S3DSurfaceFlinger :=
  match op with
  | .setConfig t o m => ((w.1.setConfig t o m).2, w.2)
  | .lockPageFlip layout => ({ w.1 with mCurrentLayout := layout }.lockPageFlip K w.2).2
  | .onRemoved => (w.1, (w.1.onRemoved w.2).2)

/-- The layer and `S3DSurfaceFlinger` after a sequence of operations. -/
def runOps (K : S3DConsts) (ops : List LayerOp) (w : OmapLayer × S3DSurfaceFlinger) :
    OmapLayer × S3DSurfaceFlinger :=
  ops.foldl (fun w op => op.run K w) w

/-- The operations of a sequence each keep the layer registered exactly when
it is stereoscopic: every `lockPageFlip`; a `setConfig` whose new layout type
is `Mono` exactly when the current one is; an `onRemoved` of a layer whose
layout type is `Mono`. -/
def admissibleOps (K : S3DConsts) : List LayerOp → OmapLayer × S3DSurfaceFlinger → Bool
  | [], _ => true
  | op :: rest, w =>
    (match op with
     | .setConfig t _ _ => decide (t = .eMono ↔ w.1.mType = .eMono)
     | .lockPageFlip _ => true
     | .onRemoved => decide (w.1.mType = .eMono)) &&
    admissibleOps K rest (op.run K w)

/-- The full texture-coordinate quad `(0,1), (0,0), (1,0), (1,1)`. -/
def fullQuad : List TexCoords := [⟨0, 1⟩, ⟨0, 0⟩, ⟨1, 0⟩, ⟨1, 1⟩]

/-! ## Bit-level lemmas -/

open S3DLayoutType S3DLayoutOrder S3DRenderMode

theorem testBit_not32 (m i : Nat) : (not32 m).testBit i = (decide (i < 32) && !m.testBit i) := by
  unfold not32
  rw [Nat.testBit_xor, Nat.testBit_two_pow_sub_one, Nat.testBit_mod_two_pow]
  by_cases h : i < 32 <;> simp [h]

theorem and_eq_zero_testBit {a b : Nat} (h : a &&& b = 0) (i : Nat) :
    (a.testBit i && b.testBit i) = false := by
  rw [← Nat.testBit_and, h, Nat.zero_testBit]

theorem and_eq_self_testBit {a b : Nat} (h : a &&& b = a) (i : Nat) :
    a.testBit i = true → b.testBit i = true := by
  intro ha
  have := congrArg (fun n => n.testBit i) h
  simp only [Nat.testBit_and, ha, Bool.true_and] at this
  exact this

theorem lt_two_pow_testBit {a : Nat} (h : a < 2 ^ 32) (i : Nat) :
    a.testBit i = true → i < 32 := by
  intro ha
  by_contra hge
  have : a < 2 ^ i := lt_of_lt_of_le h (Nat.pow_le_pow_right (by norm_num) (by omega))
  rw [Nat.testBit_lt_two_pow this] at ha
  exact absurd ha (by simp)

theorem testBit_setGeometry (K : S3DConsts) (self : OmapLayer) (flags i : Nat) :
    (self.setGeometry K flags).testBit i =
      (decide (i < 32) &&
        ((K.modeValue self.mRenderMode <<< K.S3DRenderModeShift).testBit i ||
         (!K.S3DRenderModeMask.testBit i &&
           ((K.orderValue self.mViewOrder <<< K.S3DLayoutOrderShift).testBit i ||
            (!K.S3DLayoutOrderMask.testBit i &&
              ((K.typeValue self.mType <<< K.S3DLayoutTypeShift).testBit i ||
               (!K.S3DLayoutTypeMask.testBit i && flags.testBit i))))))) := by
  simp only [OmapLayer.setGeometry, Nat.testBit_mod_two_pow, Nat.testBit_or, Nat.testBit_and,
    testBit_not32]
  generalize (K.modeValue self.mRenderMode <<< K.S3DRenderModeShift).testBit i = a
  generalize (K.orderValue self.mViewOrder <<< K.S3DLayoutOrderShift).testBit i = b
  generalize (K.typeValue self.mType <<< K.S3DLayoutTypeShift).testBit i = c
  generalize K.S3DRenderModeMask.testBit i = d
  generalize K.S3DLayoutOrderMask.testBit i = e
  generalize K.S3DLayoutTypeMask.testBit i = g
  generalize flags.testBit i = h
  generalize decide (i < 32) = k
  cases a <;> cases b <;> cases c <;> cases d <;> cases e <;> cases g <;> cases h <;> cases k <;> rfl

theorem shiftRight_and_of_and_shiftLeft {x m v s : Nat} (h : x &&& (m <<< s) = v <<< s) :
    (x >>> s) &&& m = v := by
  apply Nat.eq_of_testBit_eq
  intro i
  have hi := congrArg (fun n => n.testBit (s + i)) h
  simp only [Nat.testBit_and, Nat.testBit_shiftLeft, Nat.le_add_right, ge_iff_le,
    decide_True, Nat.add_sub_cancel_left, Bool.true_and] at hi
  rw [Nat.testBit_and, Nat.testBit_shiftRight]
  exact hi

theorem setGeometry_and_typeMask (K : S3DConsts) (hK : K.RangesOk) (self : OmapLayer)
    (flags : Nat) :
    self.setGeometry K flags &&& K.S3DLayoutTypeMask
      = K.typeValue self.mType <<< K.S3DLayoutTypeShift := by
  apply Nat.eq_of_testBit_eq
  intro i
  rw [Nat.testBit_and, testBit_setGeometry]
  have h1 := and_eq_zero_testBit hK.type_order i
  have h2 := and_eq_zero_testBit hK.type_mode i
  have h3 := and_eq_self_testBit (hK.type_fits self.mType) i
  have h4 := and_eq_self_testBit (hK.order_fits self.mViewOrder) i
  have h5 := and_eq_self_testBit (hK.mode_fits self.mRenderMode) i
  have h6 := lt_two_pow_testBit hK.typeMask_lt i
  revert h1 h2 h3 h4 h5 h6
  generalize (K.modeValue self.mRenderMode <<< K.S3DRenderModeShift).testBit i = a
  generalize (K.orderValue self.mViewOrder <<< K.S3DLayoutOrderShift).testBit i = b
  generalize (K.typeValue self.mType <<< K.S3DLayoutTypeShift).testBit i = c
  generalize K.S3DRenderModeMask.testBit i = d
  generalize K.S3DLayoutOrderMask.testBit i = e
  generalize K.S3DLayoutTypeMask.testBit i = g
  generalize flags.testBit i = h
  by_cases hi : i < 32 <;>
    cases a <;> cases b <;> cases c <;> cases d <;> cases e <;> cases g <;> cases h <;>
    simp [hi]

theorem setGeometry_and_orderMask (K : S3DConsts) (hK : K.RangesOk) (self : OmapLayer)
    (flags : Nat) :
    self.setGeometry K flags &&& K.S3DLayoutOrderMask
      = K.orderValue self.mViewOrder <<< K.S3DLayoutOrderShift := by
  apply Nat.eq_of_testBit_eq
  intro i
  rw [Nat.testBit_and, testBit_setGeometry]
  have h1 := and_eq_zero_testBit hK.type_order i
  have h2 := and_eq_zero_testBit hK.order_mode i
  have h3 := and_eq_self_testBit (hK.type_fits self.mType) i
  have h4 := and_eq_self_testBit (hK.order_fits self.mViewOrder) i
  have h5 := and_eq_self_testBit (hK.mode_fits self.mRenderMode) i
  have h6 := lt_two_pow_testBit hK.orderMask_lt i
  revert h1 h2 h3 h4 h5 h6
  generalize (K.modeValue self.mRenderMode <<< K.S3DRenderModeShift).testBit i = a
  generalize (K.orderValue self.mViewOrder <<< K.S3DLayoutOrderShift).testBit i = b
  generalize (K.typeValue self.mType <<< K.S3DLayoutTypeShift).testBit i = c
  generalize K.S3DRenderModeMask.testBit i = d
  generalize K.S3DLayoutOrderMask.testBit i = e
  generalize K.S3DLayoutTypeMask.testBit i = g
  generalize flags.testBit i = h
  by_cases hi : i < 32 <;>
    cases a <;> cases b <;> cases c <;> cases d <;> cases e <;> cases g <;> cases h <;>
    simp [hi]

theorem setGeometry_and_modeMask (K : S3DConsts) (hK : K.RangesOk) (self : OmapLayer)
    (flags : Nat) :
    self.setGeometry K flags &&& K.S3DRenderModeMask
      = K.modeValue self.mRenderMode <<< K.S3DRenderModeShift := by
  apply Nat.eq_of_testBit_eq
  intro i
  rw [Nat.testBit_and, testBit_setGeometry]
  have h1 := and_eq_zero_testBit hK.type_mode i
  have h2 := and_eq_zero_testBit hK.order_mode i
  have h5 := and_eq_self_testBit (hK.mode_fits self.mRenderMode) i
  have h6 := lt_two_pow_testBit hK.modeMask_lt i
  revert h1 h2 h5 h6
  generalize (K.modeValue self.mRenderMode <<< K.S3DRenderModeShift).testBit i = a
  generalize (K.orderValue self.mViewOrder <<< K.S3DLayoutOrderShift).testBit i = b
  generalize (K.typeValue self.mType <<< K.S3DLayoutTypeShift).testBit i = c
  generalize K.S3DRenderModeMask.testBit i = d
  generalize K.S3DLayoutOrderMask.testBit i = e
  generalize K.S3DLayoutTypeMask.testBit i = g
  generalize flags.testBit i = h
  by_cases hi : i < 32 <;>
    cases a <;> cases b <;> cases c <;> cases d <;> cases e <;> cases g <;> cases h <;>
    simp [hi]

theorem setGeometry_testBit_outside (K : S3DConsts) (hK : K.RangesOk) (self : OmapLayer)
    (flags : Nat) (hflags : flags < 2 ^ 32) (i : Nat)
    (ht : K.S3DLayoutTypeMask.testBit i = false) (ho : K.S3DLayoutOrderMask.testBit i = false)
    (hm : K.S3DRenderModeMask.testBit i = false) :
    (self.setGeometry K flags).testBit i = flags.testBit i := by
  rw [testBit_setGeometry]
  have h3 := and_eq_self_testBit (hK.type_fits self.mType) i
  have h4 := and_eq_self_testBit (hK.order_fits self.mViewOrder) i
  have h5 := and_eq_self_testBit (hK.mode_fits self.mRenderMode) i
  have h6 := lt_two_pow_testBit hflags i
  rw [ht] at h3
  rw [ho] at h4
  rw [hm] at h5
  rw [ht, ho, hm]
  revert h3 h4 h5 h6
  generalize (K.modeValue self.mRenderMode <<< K.S3DRenderModeShift).testBit i = a
  generalize (K.orderValue self.mViewOrder <<< K.S3DLayoutOrderShift).testBit i = b
  generalize (K.typeValue self.mType <<< K.S3DLayoutTypeShift).testBit i = c
  generalize flags.testBit i = h
  by_cases hi : i < 32 <;> cases a <;> cases b <;> cases c <;> cases h <;> simp [hi]

theorem sampleConsts_rangesOk : sampleConsts.RangesOk where
  typeMask_lt := by decide
  orderMask_lt := by decide
  modeMask_lt := by decide
  type_order := by decide
  type_mode := by decide
  order_mode := by decide
  type_fits := by intro t; cases t <;> decide
  order_fits := by intro o; cases o <;> decide
  mode_fits := by intro m; cases m <;> decide

/-! ## The decode of `lockPageFlip` -/

theorem switchLayoutType_some {K : S3DConsts} {b : Nat} {t : S3DLayoutType}
    (h : switchLayoutType K b = some t) : t ≠ eMono ∧ b = K.typeValue t := by
  unfold switchLayoutType at h
  split_ifs at h with h1 h2 h3 h4 <;> cases h <;> exact ⟨by decide, by assumption⟩

theorem switchLayoutType_eq_none_iff (K : S3DConsts) (b : Nat) :
    switchLayoutType K b = none ↔ ∀ t, t ≠ eMono → b ≠ K.typeValue t := by
  constructor
  · intro h t ht hb
    unfold switchLayoutType at h
    cases t
    · exact ht rfl
    all_goals (split_ifs at h)
  · intro h
    unfold switchLayoutType
    rw [if_neg (h eSideBySide (by decide)), if_neg (h eTopBottom (by decide)),
      if_neg (h eRowInterleaved (by decide)), if_neg (h eColInterleaved (by decide))]

theorem switchLayoutType_value {K : S3DConsts}
    (hd : ∀ t t', t ≠ eMono → t' ≠ eMono → K.typeValue t = K.typeValue t' → t = t')
    {t : S3DLayoutType} (ht : t ≠ eMono) : switchLayoutType K (K.typeValue t) = some t := by
  cases hs : switchLayoutType K (K.typeValue t) with
  | none => exact absurd rfl ((switchLayoutType_eq_none_iff K _).1 hs t ht)
  | some t' =>
    obtain ⟨ht', he⟩ := switchLayoutType_some hs
    rw [hd t t' ht ht' he]

theorem orderBodies_eq (K : S3DConsts) (b : Nat) (self : OmapLayer) :
    orderDefaultBody (orderCaseBody K b self) = { self with mViewOrder := eLeftViewFirst } := by
  unfold orderDefaultBody orderCaseBody
  split_ifs <;> rfl

theorem lockPageFlip_of_none {K : S3DConsts} {self : OmapLayer}
    (h : switchLayoutType K (s3dTypeByte self.mCurrentLayout) = none) (f : S3DSurfaceFlinger) :
    self.lockPageFlip K f = ([], self, f) := by
  unfold OmapLayer.lockPageFlip
  simp only [h]

theorem lockPageFlip_of_some {K : S3DConsts} {self : OmapLayer} {t : S3DLayoutType}
    (h : switchLayoutType K (s3dTypeByte self.mCurrentLayout) = some t) (f : S3DSurfaceFlinger) :
    (self.lockPageFlip K f).2.1 = { self with mType := t, mViewOrder := eLeftViewFirst } := by
  unfold OmapLayer.lockPageFlip
  simp only [h, orderBodies_eq]
  split_ifs <;> rfl

theorem lockPageFlip_mRenderMode (K : S3DConsts) (self : OmapLayer) (f : S3DSurfaceFlinger) :
    (self.lockPageFlip K f).2.1.mRenderMode = self.mRenderMode := by
  cases h : switchLayoutType K (s3dTypeByte self.mCurrentLayout) with
  | none => rw [lockPageFlip_of_none h]
  | some t => rw [lockPageFlip_of_some h]

theorem lockPageFlip_mType (K : S3DConsts) (self : OmapLayer) (f : S3DSurfaceFlinger) :
    (self.lockPageFlip K f).2.1.mType = self.mType ∨ (self.lockPageFlip K f).2.1.mType ≠ eMono := by
  cases h : switchLayoutType K (s3dTypeByte self.mCurrentLayout) with
  | none => left; rw [lockPageFlip_of_none h]
  | some t => right; rw [lockPageFlip_of_some h]; exact (switchLayoutType_some h).1

theorem lockPageFlip_mViewOrder (K : S3DConsts) (self : OmapLayer) (f : S3DSurfaceFlinger) :
    (self.lockPageFlip K f).2.1.mViewOrder = self.mViewOrder ∨
      (self.lockPageFlip K f).2.1.mViewOrder = eLeftViewFirst := by
  cases h : switchLayoutType K (s3dTypeByte self.mCurrentLayout) with
  | none => left; rw [lockPageFlip_of_none h]
  | some t => right; rw [lockPageFlip_of_some h]

theorem s3dTypeByte_setGeometry (K : S3DConsts) (hK : K.RangesOk)
    (hts : K.S3DLayoutTypeShift = 16) (htm : K.S3DLayoutTypeMask = 0xFF0000)
    (self : OmapLayer) (flags : Nat) :
    s3dTypeByte (self.setGeometry K flags) = K.typeValue self.mType := by
  have h := setGeometry_and_typeMask K hK self flags
  rw [hts, htm] at h
  exact shiftRight_and_of_and_shiftLeft (m := 0xFF) h

theorem s3dOrderByte_setGeometry (K : S3DConsts) (hK : K.RangesOk)
    (hos : K.S3DLayoutOrderShift = 24) (hom : K.S3DLayoutOrderMask = 0xFF000000)
    (self : OmapLayer) (flags : Nat) :
    s3dOrderByte (self.setGeometry K flags) = K.orderValue self.mViewOrder := by
  have h := setGeometry_and_orderMask K hK self flags
  rw [hos, hom] at h
  exact shiftRight_and_of_and_shiftLeft (m := 0xFF) h

theorem testBit_255 (i : Nat) : (0xFF : Nat).testBit i = decide (i < 8) :=
  Nat.testBit_two_pow_sub_one 8 i

theorem s3dTypeByte_word {b v : Nat} (hv : v < 256) :
    s3dTypeByte ((b <<< 24) ||| (v <<< 16)) = v := by
  apply Nat.eq_of_testBit_eq
  intro i
  unfold s3dTypeByte
  rw [Nat.testBit_and, Nat.testBit_shiftRight, Nat.testBit_or, Nat.testBit_shiftLeft,
    Nat.testBit_shiftLeft, testBit_255]
  by_cases hi : i < 8
  · have h1 : ¬ (16 + i ≥ 24) := by omega
    simp [hi, h1]
  · have h2 : v.testBit i = false :=
      Nat.testBit_lt_two_pow (lt_of_lt_of_le hv (by
        calc 256 = 2 ^ 8 := by norm_num
          _ ≤ 2 ^ i := Nat.pow_le_pow_right (by norm_num) (by omega)))
    simp [hi, h2]

theorem s3dOrderByte_word {b v : Nat} (hb : b < 256) (hv : v < 256) :
    s3dOrderByte ((b <<< 24) ||| (v <<< 16)) = b := by
  apply Nat.eq_of_testBit_eq
  intro i
  unfold s3dOrderByte
  rw [Nat.testBit_and, Nat.testBit_shiftRight, Nat.testBit_or, Nat.testBit_shiftLeft,
    Nat.testBit_shiftLeft, testBit_255]
  by_cases hi : i < 8
  · have h2 : v.testBit (24 + i - 16) = false :=
      Nat.testBit_lt_two_pow (lt_of_lt_of_le hv (by
        calc 256 = 2 ^ 8 := by norm_num
          _ ≤ 2 ^ (24 + i - 16) := Nat.pow_le_pow_right (by norm_num) (by omega)))
    simp [hi, h2]
  · have h2 : b.testBit i = false :=
      Nat.testBit_lt_two_pow (lt_of_lt_of_le hb (by
        calc 256 = 2 ^ 8 := by norm_num
          _ ≤ 2 ^ i := Nat.pow_le_pow_right (by norm_num) (by omega)))
    simp [hi, h2]

/-- C1, as stated, fails.  With the sample constants a layer holding
`{Mono, LeftFirst, RenderLeft}` that decodes the word encoded from
`{SideBySide, RightFirst, Stereo}` ends with `{SideBySide, LeftFirst,
RenderLeft}`; and whatever the constants are, the round trip is not the
identity: the decode never stores a render mode, never stores `Mono`, and
never stores `RightFirst` over `LeftFirst`. -/
theorem roundTrip_counterexample :
    (roundTrip sampleConsts (sampleLayer eSideBySide eRightViewFirst eRenderStereo 0)
        (sampleLayer eMono eLeftViewFirst eRenderLeft 0) 0
        (sampleFlinger .Default .eDrawingS3DLeft)).config
      = (eSideBySide, eLeftViewFirst, eRenderLeft) ∧
    (¬ ∃ K : S3DConsts, ∀ (src prior : OmapLayer) (flags : Nat) (f : S3DSurfaceFlinger),
        (roundTrip K src prior flags f).mRenderMode = src.mRenderMode) ∧
    (¬ ∃ K : S3DConsts, ∀ (src prior : OmapLayer) (flags : Nat) (f : S3DSurfaceFlinger),
        (roundTrip K src prior flags f).mType = src.mType) ∧
    (¬ ∃ K : S3DConsts, ∀ (src prior : OmapLayer) (flags : Nat) (f : S3DSurfaceFlinger),
        (roundTrip K src prior flags f).mViewOrder = src.mViewOrder) := by
  refine ⟨by decide, ?_, ?_, ?_⟩
  · rintro ⟨K, h⟩
    have h1 := h (sampleLayer eSideBySide eRightViewFirst eRenderStereo 0)
      (sampleLayer eMono eLeftViewFirst eRenderLeft 0) 0 (sampleFlinger .Default .eDrawingS3DLeft)
    unfold roundTrip at h1
    rw [lockPageFlip_mRenderMode] at h1
    simp [sampleLayer, OmapLayer.new] at h1
  · rintro ⟨K, h⟩
    have h1 := h (sampleLayer eMono eLeftViewFirst eRenderStereo 0)
      (sampleLayer eSideBySide eLeftViewFirst eRenderStereo 0) 0
      (sampleFlinger .Default .eDrawingS3DLeft)
    unfold roundTrip at h1
    rcases lockPageFlip_mType K _ (sampleFlinger .Default .eDrawingS3DLeft) with h2 | h2
    · rw [h2] at h1
      simp [sampleLayer, OmapLayer.new] at h1
    · exact h2 h1
  · rintro ⟨K, h⟩
    have h1 := h (sampleLayer eSideBySide eRightViewFirst eRenderStereo 0)
      (sampleLayer eSideBySide eLeftViewFirst eRenderStereo 0) 0
      (sampleFlinger .Default .eDrawingS3DLeft)
    unfold roundTrip at h1
    rcases lockPageFlip_mViewOrder K _ (sampleFlinger .Default .eDrawingS3DLeft) with h2 | h2
    · rw [h2] at h1
      simp [sampleLayer, OmapLayer.new] at h1
    · rw [h2] at h1
      simp [sampleLayer, OmapLayer.new] at h1

/-- C1, amended.  When the layout-type and view-order ranges of the flags word
are the two bytes `lockPageFlip` reads (bits 16..23 and 24..31), the ranges
are in order and the enumerators have distinct values: decoding the word
encoded from a configuration whose layout type is `SideBySide`, `TopBottom`,
`RowInterleaved` or `ColInterleaved` stores that layout type, keeps the render
mode the layer held before (the render mode is not decoded), and stores
`LeftFirst` when `LeftFirst` was encoded; decoding a word encoded from a
`Mono` configuration fails and leaves the stored configuration as it was. -/
theorem roundTrip_amended (K : S3DConsts) (hK : K.RangesOk)
    (hts : K.S3DLayoutTypeShift = 16) (htm : K.S3DLayoutTypeMask = 0xFF0000)
    (hinj : Function.Injective K.typeValue)
    (src prior : OmapLayer) (flags : Nat) (f : S3DSurfaceFlinger) :
    (src.mType ≠ eMono →
      (roundTrip K src prior flags f).mType = src.mType ∧
      (roundTrip K src prior flags f).mRenderMode = prior.mRenderMode ∧
      (src.mViewOrder = eLeftViewFirst →
        (roundTrip K src prior flags f).mViewOrder = eLeftViewFirst)) ∧
    (src.mType = eMono →
      switchLayoutType K (s3dTypeByte (src.setGeometry K flags)) = none ∧
      (roundTrip K src prior flags f).config = prior.config) := by
  have hb := s3dTypeByte_setGeometry K hK hts htm src flags
  constructor
  · intro hne
    have hs : switchLayoutType K (s3dTypeByte
        ({ prior with mCurrentLayout := src.setGeometry K flags } : OmapLayer).mCurrentLayout)
        = some src.mType := by
      show switchLayoutType K (s3dTypeByte (src.setGeometry K flags)) = some src.mType
      rw [hb]
      exact switchLayoutType_value (fun t t' _ _ h => hinj h) hne
    unfold roundTrip
    rw [lockPageFlip_of_some hs]
    exact ⟨rfl, rfl, fun _ => rfl⟩
  · intro he
    have hn : switchLayoutType K (s3dTypeByte (src.setGeometry K flags)) = none := by
      rw [hb, switchLayoutType_eq_none_iff]
      intro t ht h
      rw [he] at h
      exact ht (hinj h).symm
    refine ⟨hn, ?_⟩
    unfold roundTrip
    rw [@lockPageFlip_of_none K { prior with mCurrentLayout := src.setGeometry K flags } hn f]
    rfl

/-- C1, amended, at the sample constants: `{TopBottom, LeftFirst, RenderRight}`
written over the word `0x12345678` and decoded by a layer holding
`{Mono, RightFirst, RenderLeft}`. -/
theorem roundTrip_amended_witness :
    (roundTrip sampleConsts (sampleLayer eTopBottom eLeftViewFirst eRenderRight 0)
        (sampleLayer eMono eRightViewFirst eRenderLeft 0) 0x12345678
        (sampleFlinger .Anaglyph .eDrawingS3DLeft)).config
      = (eTopBottom, eLeftViewFirst, eRenderLeft) := by
  have h := (roundTrip_amended sampleConsts sampleConsts_rangesOk rfl rfl
    (by intro a b; cases a <;> cases b <;> decide)
    (sampleLayer eTopBottom eLeftViewFirst eRenderRight 0)
    (sampleLayer eMono eRightViewFirst eRenderLeft 0) 0x12345678
    (sampleFlinger .Anaglyph .eDrawingS3DLeft)).1 (by decide)
  unfold OmapLayer.config
  rw [h.1, h.2.1, h.2.2 rfl]
  rfl

/-! ## Claims on the flags word -/

/-- C2.  When the layout-type byte of the layout word is the value of none of
the five layout types, the decode of `lockPageFlip` fails (the first `switch`
takes `default` and returns): the call makes no call on `S3DSurfaceFlinger`,
and leaves the layer (so its layout type, view order and render mode) and the
set of active layers exactly as they were. -/
theorem lockPageFlip_unknown_type (K : S3DConsts) (self : OmapLayer) (f : S3DSurfaceFlinger)
    (h : ∀ t, s3dTypeByte self.mCurrentLayout ≠ K.typeValue t) :
    switchLayoutType K (s3dTypeByte self.mCurrentLayout) = none ∧
    self.lockPageFlip K f = ([], self, f) := by
  have hn : switchLayoutType K (s3dTypeByte self.mCurrentLayout) = none :=
    (switchLayoutType_eq_none_iff K _).2 (fun t _ => h t)
  exact ⟨hn, lockPageFlip_of_none hn f⟩

/-- C2 at the sample constants: layout-type byte `0xFF`, view-order byte `1`,
on a layer holding `{TopBottom, RightFirst, RenderRight}`. -/
theorem lockPageFlip_unknown_type_witness :
    (sampleLayer eTopBottom eRightViewFirst eRenderRight 0x01FF0000).lockPageFlip sampleConsts
        (sampleFlinger .Anaglyph .eDrawingS3DLeft)
      = ([], sampleLayer eTopBottom eRightViewFirst eRenderRight 0x01FF0000,
          sampleFlinger .Anaglyph .eDrawingS3DLeft) :=
  (lockPageFlip_unknown_type sampleConsts
    (sampleLayer eTopBottom eRightViewFirst eRenderRight 0x01FF0000)
    (sampleFlinger .Anaglyph .eDrawingS3DLeft)
    (by intro t; cases t <;> decide)).2

/-- C3, as stated, fails at `Mono`.  With the sample constants a layout word
whose layout-type byte is the value of `Mono` makes the decode fail and a
layer holding `SideBySide` keep it; and for no constants under which the value
of `Mono` fits the byte does the claim hold. -/
theorem lockPageFlip_mono_counterexample :
    (switchLayoutType sampleConsts (s3dTypeByte 0) = none ∧
     s3dTypeByte 0 = sampleConsts.typeValue eMono ∧
     ((sampleLayer eSideBySide eLeftViewFirst eRenderStereo 0).lockPageFlip sampleConsts
        (sampleFlinger .Default .eDrawingS3DLeft)).2.1.mType = eSideBySide) ∧
    (¬ ∃ K : S3DConsts, K.typeValue eMono < 256 ∧
      (∀ self : OmapLayer,
        switchLayoutType K (s3dTypeByte self.mCurrentLayout) = none ↔
          ∀ t, s3dTypeByte self.mCurrentLayout ≠ K.typeValue t) ∧
      (∀ (t : S3DLayoutType) (self : OmapLayer) (f : S3DSurfaceFlinger),
        s3dTypeByte self.mCurrentLayout = K.typeValue t →
          switchLayoutType K (s3dTypeByte self.mCurrentLayout) ≠ none ∧
          (self.lockPageFlip K f).2.1.mType = t)) := by
  refine ⟨⟨by decide, by decide, by decide⟩, ?_⟩
  rintro ⟨K, hlt, -, h⟩
  have hb : s3dTypeByte
      (sampleLayer eSideBySide eLeftViewFirst eRenderStereo
        ((0 <<< 24) ||| (K.typeValue eMono <<< 16))).mCurrentLayout = K.typeValue eMono :=
    s3dTypeByte_word hlt
  have h1 := (h eMono _ (sampleFlinger .Default .eDrawingS3DLeft) hb).2
  rcases lockPageFlip_mType K
    (sampleLayer eSideBySide eLeftViewFirst eRenderStereo
      ((0 <<< 24) ||| (K.typeValue eMono <<< 16)))
    (sampleFlinger .Default .eDrawingS3DLeft) with h2 | h2
  · rw [h2] at h1
    simp [sampleLayer, OmapLayer.new] at h1
  · exact h2 h1

/-- C3, amended.  The decode of `lockPageFlip` fails exactly when the
layout-type byte is the value of none of `SideBySide`, `TopBottom`,
`RowInterleaved`, `ColInterleaved` (`Mono` is not accepted); and, the four
case labels being distinct, for each of these four values the decode succeeds
and the stored layout type becomes that value. -/
theorem lockPageFlip_accepts_four (K : S3DConsts)
    (hd : ∀ t t', t ≠ eMono → t' ≠ eMono → K.typeValue t = K.typeValue t' → t = t')
    (self : OmapLayer) (f : S3DSurfaceFlinger) :
    (switchLayoutType K (s3dTypeByte self.mCurrentLayout) = none ↔
      ∀ t, t ≠ eMono → s3dTypeByte self.mCurrentLayout ≠ K.typeValue t) ∧
    (∀ t, t ≠ eMono → s3dTypeByte self.mCurrentLayout = K.typeValue t →
      switchLayoutType K (s3dTypeByte self.mCurrentLayout) = some t ∧
      (self.lockPageFlip K f).2.1.mType = t) := by
  refine ⟨switchLayoutType_eq_none_iff K _, ?_⟩
  intro t ht hb
  have hs : switchLayoutType K (s3dTypeByte self.mCurrentLayout) = some t := by
    rw [hb]
    exact switchLayoutType_value hd ht
  refine ⟨hs, ?_⟩
  rw [lockPageFlip_of_some hs]

/-- C3, amended, at the sample constants: layout-type byte `4` on a fresh
layer stores `ColInterleaved`. -/
theorem lockPageFlip_accepts_four_witness :
    ((sampleLayer eMono eLeftViewFirst eRenderStereo 0x00040000).lockPageFlip sampleConsts
        (sampleFlinger .Default .eDrawingS3DLeft)).2.1.mType = eColInterleaved :=
  ((lockPageFlip_accepts_four sampleConsts
    (by intro a b; cases a <;> cases b <;> decide)
    (sampleLayer eMono eLeftViewFirst eRenderStereo 0x00040000)
    (sampleFlinger .Default .eDrawingS3DLeft)).2 eColInterleaved (by decide) (by decide)).2

/-- C4, as stated, fails when the valid layout type is `Mono`.  With the
sample constants the layout word `0x7F000000` (layout-type byte `Mono`,
view-order byte `0x7F`) on a layer holding `RightFirst` makes the decode fail
and leaves `RightFirst` stored; and the claim holds for no constants under
which the value of `Mono` fits the byte and differs from the other four. -/
theorem lockPageFlip_order_counterexample :
    (s3dTypeByte 0x7F000000 = sampleConsts.typeValue eMono ∧
     (∀ o, s3dOrderByte 0x7F000000 ≠ sampleConsts.orderValue o) ∧
     switchLayoutType sampleConsts (s3dTypeByte 0x7F000000) = none ∧
     ((sampleLayer eSideBySide eRightViewFirst eRenderStereo 0x7F000000).lockPageFlip
        sampleConsts (sampleFlinger .Default .eDrawingS3DLeft)).2.1.mViewOrder
       = eRightViewFirst) ∧
    (¬ ∃ K : S3DConsts, K.typeValue eMono < 256 ∧
      (∀ t, t ≠ eMono → K.typeValue t ≠ K.typeValue eMono) ∧
      ∀ (self : OmapLayer) (f : S3DSurfaceFlinger),
        (∃ t, s3dTypeByte self.mCurrentLayout = K.typeValue t) →
        (∀ o, s3dOrderByte self.mCurrentLayout ≠ K.orderValue o) →
          switchLayoutType K (s3dTypeByte self.mCurrentLayout) ≠ none ∧
          (self.lockPageFlip K f).2.1.mViewOrder = eLeftViewFirst) := by
  refine ⟨⟨by decide, by intro o; cases o <;> decide, by decide, by decide⟩, ?_⟩
  rintro ⟨K, hlt, hne, h⟩
  obtain ⟨b, hb, hbl, hbr⟩ : ∃ b, b < 256 ∧ b ≠ K.orderValue eLeftViewFirst ∧
      b ≠ K.orderValue eRightViewFirst := by
    by_cases h0 : 0 ≠ K.orderValue eLeftViewFirst ∧ 0 ≠ K.orderValue eRightViewFirst
    · exact ⟨0, by norm_num, h0.1, h0.2⟩
    · by_cases h1 : 1 ≠ K.orderValue eLeftViewFirst ∧ 1 ≠ K.orderValue eRightViewFirst
      · exact ⟨1, by norm_num, h1.1, h1.2⟩
      · exact ⟨2, by norm_num, by omega, by omega⟩
  have ht : s3dTypeByte
      (sampleLayer eSideBySide eRightViewFirst eRenderStereo
        ((b <<< 24) ||| (K.typeValue eMono <<< 16))).mCurrentLayout = K.typeValue eMono :=
    s3dTypeByte_word hlt
  have ho : s3dOrderByte
      (sampleLayer eSideBySide eRightViewFirst eRenderStereo
        ((b <<< 24) ||| (K.typeValue eMono <<< 16))).mCurrentLayout = b :=
    s3dOrderByte_word hb hlt
  have hc := (h _ (sampleFlinger .Default .eDrawingS3DLeft) ⟨eMono, ht⟩
    (by intro o; rw [ho]; cases o <;> assumption)).1
  apply hc
  rw [switchLayoutType_eq_none_iff, ht]
  intro t htm he
  exact hne t htm he.symm

/-- C4, amended.  When the layout-type byte is the value of one of
`SideBySide`, `TopBottom`, `RowInterleaved`, `ColInterleaved` and the
view-order byte is the value of neither `LeftFirst` nor `RightFirst`, then
whatever the layer held before, the decode of `lockPageFlip` succeeds and the
stored view order afterwards is `LeftFirst`. -/
theorem lockPageFlip_unknown_order (K : S3DConsts) (self : OmapLayer) (f : S3DSurfaceFlinger)
    (ht : ∃ t, t ≠ eMono ∧ s3dTypeByte self.mCurrentLayout = K.typeValue t)
    (_ho : ∀ o, s3dOrderByte self.mCurrentLayout ≠ K.orderValue o) :
    switchLayoutType K (s3dTypeByte self.mCurrentLayout) ≠ none ∧
    (self.lockPageFlip K f).2.1.mViewOrder = eLeftViewFirst := by
  obtain ⟨t, htm, hb⟩ := ht
  have hs : switchLayoutType K (s3dTypeByte self.mCurrentLayout) ≠ none := by
    intro hn
    exact (switchLayoutType_eq_none_iff K _).1 hn t htm hb
  refine ⟨hs, ?_⟩
  cases hc : switchLayoutType K (s3dTypeByte self.mCurrentLayout) with
  | none => exact absurd hc hs
  | some t' => rw [lockPageFlip_of_some hc]

/-- C4, amended, at the sample constants: layout-type byte `SideBySide`,
view-order byte `0x7F`, on a layer holding `RightFirst`. -/
theorem lockPageFlip_unknown_order_witness :
    ((sampleLayer eMono eRightViewFirst eRenderStereo 0x7F010000).lockPageFlip sampleConsts
        (sampleFlinger .Default .eDrawingS3DLeft)).2.1.mViewOrder = eLeftViewFirst :=
  (lockPageFlip_unknown_order sampleConsts
    (sampleLayer eMono eRightViewFirst eRenderStereo 0x7F010000)
    (sampleFlinger .Default .eDrawingS3DLeft)
    ⟨eSideBySide, by decide, by decide⟩ (by intro o; cases o <;> decide)).2

/-- C5.  When the three masks lie in the 32-bit word and are pairwise
disjoint and every enumerator value, shifted, lies inside its mask, then for
every incoming 32-bit flags word `setGeometry` leaves every bit outside the
three masks as it was, and afterwards each range holds exactly the shifted
value of the corresponding field, whatever the range held before. -/
theorem setGeometry_mask_then_set (K : S3DConsts) (hK : K.RangesOk) (self : OmapLayer)
    (flags : Nat) (hflags : flags < 2 ^ 32) :
    (∀ i, K.S3DLayoutTypeMask.testBit i = false → K.S3DLayoutOrderMask.testBit i = false →
        K.S3DRenderModeMask.testBit i = false →
        (self.setGeometry K flags).testBit i = flags.testBit i) ∧
    self.setGeometry K flags &&& K.S3DLayoutTypeMask
      = K.typeValue self.mType <<< K.S3DLayoutTypeShift ∧
    self.setGeometry K flags &&& K.S3DLayoutOrderMask
      = K.orderValue self.mViewOrder <<< K.S3DLayoutOrderShift ∧
    self.setGeometry K flags &&& K.S3DRenderModeMask
      = K.modeValue self.mRenderMode <<< K.S3DRenderModeShift :=
  ⟨fun i => setGeometry_testBit_outside K hK self flags hflags i,
   setGeometry_and_typeMask K hK self flags,
   setGeometry_and_orderMask K hK self flags,
   setGeometry_and_modeMask K hK self flags⟩

/-- C5 at the sample constants: `{TopBottom, RightFirst, Stereo}` written
over the all-ones word; the three ranges hold `2`, `1`, `2` and every other
bit is still set. -/
theorem setGeometry_mask_then_set_witness :
    (sampleLayer eTopBottom eRightViewFirst eRenderStereo 0).setGeometry sampleConsts 0xFFFFFFFF
        &&& sampleConsts.S3DLayoutTypeMask = 2 <<< 16 ∧
    (sampleLayer eTopBottom eRightViewFirst eRenderStereo 0).setGeometry sampleConsts 0xFFFFFFFF
      = 0x0102FEFF :=
  ⟨(setGeometry_mask_then_set sampleConsts sampleConsts_rangesOk
      (sampleLayer eTopBottom eRightViewFirst eRenderStereo 0) 0xFFFFFFFF (by norm_num)).2.1,
   by decide⟩

/-! ## The draw passes -/

theorem foldl_gl_drawRects (E : DrawEnv) (f : S3DSurfaceFlinger) (clip : Region)
    (s : RenderState) : (drawRects E f clip).foldl RenderState.gl s = s := by
  induction clip with
  | nil => rfl
  | cons r rest ih => simpa [drawRects, RenderState.gl] using ih

theorem foldl_gl_blendSetup (self : OmapLayer) (s : RenderState) :
    self.blendSetup.foldl RenderState.gl s = s := by
  unfold OmapLayer.blendSetup
  split_ifs <;> simp [RenderState.gl]

theorem foldl_gl_drawWithOpenGL2 (E : DrawEnv) (self : OmapLayer) (f : S3DSurfaceFlinger)
    (clip : Region) (h : Bool) (s : RenderState) :
    (self.drawWithOpenGL2 E f clip h).foldl RenderState.gl s
      = { s with texCoords := self.texCoords h } := by
  unfold OmapLayer.drawWithOpenGL2
  simp [List.foldl_append, foldl_gl_blendSetup, foldl_gl_drawRects, RenderState.gl]

theorem glDraws_drawRects (E : DrawEnv) (f : S3DSurfaceFlinger) (clip : Region)
    (s : RenderState) (rest : List GLCmd) :
    glDraws s (drawRects E f clip ++ rest) = List.replicate clip.length s ++ glDraws s rest := by
  induction clip with
  | nil => rfl
  | cons r rs ih => simp [drawRects, glDraws, RenderState.gl, ih, List.replicate_succ]

theorem glDraws_blendSetup (self : OmapLayer) (s : RenderState) (rest : List GLCmd) :
    glDraws s (self.blendSetup ++ rest) = glDraws s rest := by
  unfold OmapLayer.blendSetup
  split_ifs <;> simp [glDraws, RenderState.gl]

theorem glDraws_drawWithOpenGL2 (E : DrawEnv) (self : OmapLayer) (f : S3DSurfaceFlinger)
    (clip : Region) (h : Bool) (s : RenderState) :
    glDraws s (self.drawWithOpenGL2 E f clip h)
      = List.replicate clip.length { s with texCoords := self.texCoords h } := by
  unfold OmapLayer.drawWithOpenGL2
  simp [List.append_assoc, glDraws_blendSetup, glDraws, RenderState.gl, glDraws_drawRects]

theorem not_mem_drawRects_of_ne (E : DrawEnv) (f : S3DSurfaceFlinger) (clip : Region)
    (c : GLCmd) (h1 : c ≠ .glDrawArrays) (h2 : ∀ x y w h, c ≠ .glScissor x y w h) :
    c ∉ drawRects E f clip := by
  induction clip with
  | nil => simp [drawRects]
  | cons r rs ih =>
    simp only [drawRects, List.mem_cons, not_or]
    exact ⟨h2 _ _ _ _, h1, ih⟩

theorem stencil_not_mem_drawWithOpenGL2 (E : DrawEnv) (self : OmapLayer)
    (f : S3DSurfaceFlinger) (clip : Region) (h : Bool) :
    GLCmd.glEnable .GL_STENCIL_TEST ∉ self.drawWithOpenGL2 E f clip h := by
  unfold OmapLayer.drawWithOpenGL2 OmapLayer.blendSetup
  have hr := not_mem_drawRects_of_ne E f clip (.glEnable .GL_STENCIL_TEST) (by simp) (by simp)
  split_ifs <;> simp [hr]

theorem texCoordArrays_drawRects (E : DrawEnv) (f : S3DSurfaceFlinger) (clip : Region)
    (rest : List GLCmd) :
    texCoordArrays (drawRects E f clip ++ rest) = texCoordArrays rest := by
  induction clip with
  | nil => rfl
  | cons r rs ih => simp [drawRects, texCoordArrays, ih]

theorem texCoordArrays_drawWithOpenGL2 (E : DrawEnv) (self : OmapLayer)
    (f : S3DSurfaceFlinger) (clip : Region) (h : Bool) :
    texCoordArrays (self.drawWithOpenGL2 E f clip h) = [self.texCoords h] := by
  unfold OmapLayer.drawWithOpenGL2 OmapLayer.blendSetup
  split_ifs <;> simp [texCoordArrays, texCoordArrays_drawRects]

/-! ## Claims on drawing -/

/-- C6.  `drawWithOpenGL(clip)` takes the bypass path, that is, its calls are
exactly the one call of the ordinary single-pass draw `LayerBase::drawWithOpenGL(clip)`,
exactly when the output format is `Default`, or the layer is not stereoscopic
and the output format is not frame-packing.  On that path nothing else is
called (no stencil, colour-mask or texture-filter call, no draw pass of its
own), `S3DSurfaceFlinger` and so `currentEye` are unchanged, and the calls are
those the same layer makes with its layout type set to `Mono`. -/
theorem drawWithOpenGL_bypass (E : DrawEnv) (self : OmapLayer) (f : S3DSurfaceFlinger)
    (clip : Region) :
    ((self.drawWithOpenGL E f clip).1 = [Ev.layerBaseDraw clip] ↔
      (f.isDefaultRender = true ∨ (self.isS3D = false ∧ f.isFramePackingRender = false))) ∧
    ((f.isDefaultRender = true ∨ (self.isS3D = false ∧ f.isFramePackingRender = false)) →
      self.drawWithOpenGL E f clip = ([Ev.layerBaseDraw clip], f) ∧
      glCalls (self.drawWithOpenGL E f clip).1 = [] ∧
      (∀ s : RenderState, s.run (self.drawWithOpenGL E f clip).1 = s)) ∧
    (f.isDefaultRender = true →
      self.drawWithOpenGL E f clip
        = ({ self with mType := eMono } : OmapLayer).drawWithOpenGL E f clip) := by
  have hb : (f.isDefaultRender = true ∨ (self.isS3D = false ∧ f.isFramePackingRender = false)) →
      self.drawWithOpenGL E f clip = ([Ev.layerBaseDraw clip], f) := by
    intro h
    unfold OmapLayer.drawWithOpenGL
    rw [if_pos]
    rcases h with h | ⟨h1, h2⟩
    · simp [h]
    · simp [h1, h2]
  refine ⟨⟨?_, fun h => by rw [hb h]⟩, ?_, ?_⟩
  · intro h
    by_contra hc
    have hn : ¬ ((f.isDefaultRender || (!self.isS3D && !f.isFramePackingRender)) = true) := by
      intro h'
      apply hc
      simp only [Bool.or_eq_true, Bool.and_eq_true, Bool.not_eq_true'] at h'
      exact h'
    unfold OmapLayer.drawWithOpenGL at h
    rw [if_neg hn] at h
    simp at h
  · intro h
    rw [hb h]
    exact ⟨rfl, rfl, fun s => rfl⟩
  · intro h
    rw [hb (Or.inl h)]
    unfold OmapLayer.drawWithOpenGL
    rw [if_pos (by simp [h])]

/-- The calls of `drawWithOpenGL(clip)` for a stereoscopic layer in `Stereo`
render mode under interleave output. -/
theorem drawWithOpenGL_interleave_trace (E : DrawEnv) (self : OmapLayer)
    (f : S3DSurfaceFlinger) (clip : Region)
    (hS : self.isS3D = true) (hM : self.mRenderMode = eRenderStereo)
    (hF : f.outputFormat = .Interleave) :
    self.drawWithOpenGL E f clip =
      ([ .gl (.glTexParameterx .GL_TEXTURE_MAG_FILTER),
         .gl (.glTexParameterx .GL_TEXTURE_MIN_FILTER),
         .gl (.glEnable .GL_STENCIL_TEST),
         .drawPass
           (self.isDrawingFirstHalf (if f.isDrawingLeft then eRenderLeft else eRenderRight))
           (self.drawWithOpenGL2 E f clip
             (self.isDrawingFirstHalf (if f.isDrawingLeft then eRenderLeft else eRenderRight))),
         .setDrawState .eDrawingS3DRight,
         .drawPass (self.isDrawingFirstHalf eRenderRight)
           (self.drawWithOpenGL2 E (f.setDrawState .eDrawingS3DRight) clip
             (self.isDrawingFirstHalf eRenderRight)),
         .setDrawState .eDrawingS3DLeft,
         .gl (.glColorMask true true true true),
         .gl (.glDisable .GL_STENCIL_TEST) ],
       (f.setDrawState .eDrawingS3DRight).setDrawState .eDrawingS3DLeft) := by
  simp [OmapLayer.drawWithOpenGL, hS, hM, hF, S3DSurfaceFlinger.isDefaultRender,
    S3DSurfaceFlinger.isFramePackingRender, S3DSurfaceFlinger.isInterleaveRender,
    S3DSurfaceFlinger.isAnaglyphRender, S3DSurfaceFlinger.isMonoRender,
    S3DSurfaceFlinger.setDrawState]

/-- The calls of `drawWithOpenGL(clip)` for a stereoscopic layer in `Stereo`
render mode under anaglyph output. -/
theorem drawWithOpenGL_anaglyph_trace (E : DrawEnv) (self : OmapLayer)
    (f : S3DSurfaceFlinger) (clip : Region)
    (hS : self.isS3D = true) (hM : self.mRenderMode = eRenderStereo)
    (hF : f.outputFormat = .Anaglyph) :
    self.drawWithOpenGL E f clip =
      ([ .gl (.glTexParameterx .GL_TEXTURE_MAG_FILTER),
         .gl (.glTexParameterx .GL_TEXTURE_MIN_FILTER),
         .gl (.glColorMask true false false true),
         .drawPass
           (self.isDrawingFirstHalf (if f.isDrawingLeft then eRenderLeft else eRenderRight))
           (self.drawWithOpenGL2 E f clip
             (self.isDrawingFirstHalf (if f.isDrawingLeft then eRenderLeft else eRenderRight))),
         .setDrawState .eDrawingS3DRight,
         .gl (.glColorMask false true true true),
         .drawPass (self.isDrawingFirstHalf eRenderRight)
           (self.drawWithOpenGL2 E (f.setDrawState .eDrawingS3DRight) clip
             (self.isDrawingFirstHalf eRenderRight)),
         .setDrawState .eDrawingS3DLeft,
         .gl (.glColorMask true true true true),
         .gl (.glDisable .GL_STENCIL_TEST) ],
       (f.setDrawState .eDrawingS3DRight).setDrawState .eDrawingS3DLeft) := by
  simp [OmapLayer.drawWithOpenGL, hS, hM, hF, S3DSurfaceFlinger.isDefaultRender,
    S3DSurfaceFlinger.isFramePackingRender, S3DSurfaceFlinger.isInterleaveRender,
    S3DSurfaceFlinger.isAnaglyphRender, S3DSurfaceFlinger.isMonoRender,
    S3DSurfaceFlinger.setDrawState]

/-- C7, as stated, fails: for the layer `{SideBySide, LeftFirst, Stereo}`
under interleave output and the empty clip region, `drawWithOpenGL(clip)`
makes two draw passes, not one. -/
theorem drawWithOpenGL_interleave_counterexample :
    (drawPasses ⟨false, maskAll, .eDrawingS3DLeft, []⟩
      ((sampleLayer eSideBySide eLeftViewFirst eRenderStereo 0).drawWithOpenGL sampleEnv
        (sampleFlinger .Interleave .eDrawingS3DLeft) []).1).length = 2 := by
  rw [drawWithOpenGL_interleave_trace sampleEnv
    (sampleLayer eSideBySide eLeftViewFirst eRenderStereo 0)
    (sampleFlinger .Interleave .eDrawingS3DLeft) [] rfl rfl rfl]
  rfl

/-- C7, amended.  For output format `Interleave` and a stereoscopic layer
whose render mode is `Stereo`, for every clip region (the empty one included)
and every state of the stencil test and colour mask on entry:
`drawWithOpenGL(clip)` performs exactly two draw passes, the view being drawn
and then the right view with `currentEye` set to `Right`; both run with the
stencil test enabled; and after them the colour mask is all-channels and the
stencil test is disabled. -/
theorem drawWithOpenGL_interleave (E : DrawEnv) (self : OmapLayer) (f : S3DSurfaceFlinger)
    (clip : Region) (st : Bool) (cm : Bool × Bool × Bool × Bool) (tc : List TexCoords)
    (hS : self.isS3D = true) (hM : self.mRenderMode = eRenderStereo)
    (hF : f.outputFormat = .Interleave) :
    (drawPasses ⟨st, cm, f.currentEye, tc⟩ (self.drawWithOpenGL E f clip).1).map
        (fun p => (p.1.stencilTest, p.1.currentEye, p.2))
      = [ (true, f.currentEye,
            self.isDrawingFirstHalf (if f.isDrawingLeft then eRenderLeft else eRenderRight)),
          (true, .eDrawingS3DRight, self.isDrawingFirstHalf eRenderRight) ] ∧
    ((⟨st, cm, f.currentEye, tc⟩ : RenderState).run (self.drawWithOpenGL E f clip).1).colorMask
      = maskAll ∧
    ((⟨st, cm, f.currentEye, tc⟩ : RenderState).run (self.drawWithOpenGL E f clip).1).stencilTest
      = false := by
  rw [drawWithOpenGL_interleave_trace E self f clip hS hM hF]
  simp [drawPasses, RenderState.run, RenderState.step, RenderState.gl,
    foldl_gl_drawWithOpenGL2, maskAll]

/-- C7, amended, at the layer `{SideBySide, LeftFirst, Stereo}`, interleave
output, the empty clip region. -/
theorem drawWithOpenGL_interleave_witness :
    (drawPasses ⟨false, maskRed, .eDrawingS3DLeft, []⟩
        ((sampleLayer eSideBySide eLeftViewFirst eRenderStereo 0).drawWithOpenGL sampleEnv
          (sampleFlinger .Interleave .eDrawingS3DLeft) []).1).map
        (fun p => (p.1.stencilTest, p.1.currentEye, p.2))
      = [ (true, .eDrawingS3DLeft, true), (true, .eDrawingS3DRight, false) ] :=
  (drawWithOpenGL_interleave sampleEnv (sampleLayer eSideBySide eLeftViewFirst eRenderStereo 0)
    (sampleFlinger .Interleave .eDrawingS3DLeft) [] false maskRed [] rfl rfl rfl).1

/-- C8.  For output format `Anaglyph` and a stereoscopic layer whose render
mode is `Stereo`, for every clip region and every state on entry:
`drawWithOpenGL(clip)` performs exactly two draw passes, the first with colour
mask red + alpha, the second with colour mask green + blue + alpha and with
`currentEye` set to `Right`; no call enables the stencil test; on return
`currentEye` is `Left` and the colour mask is all-channels. -/
theorem drawWithOpenGL_anaglyph (E : DrawEnv) (self : OmapLayer) (f : S3DSurfaceFlinger)
    (clip : Region) (st : Bool) (cm : Bool × Bool × Bool × Bool) (tc : List TexCoords)
    (hS : self.isS3D = true) (hM : self.mRenderMode = eRenderStereo)
    (hF : f.outputFormat = .Anaglyph) :
    (drawPasses ⟨st, cm, f.currentEye, tc⟩ (self.drawWithOpenGL E f clip).1).map
        (fun p => (p.1.colorMask, p.1.currentEye, p.2))
      = [ (maskRed, f.currentEye,
            self.isDrawingFirstHalf (if f.isDrawingLeft then eRenderLeft else eRenderRight)),
          (maskCyan, .eDrawingS3DRight, self.isDrawingFirstHalf eRenderRight) ] ∧
    GLCmd.glEnable .GL_STENCIL_TEST ∉ glCalls (self.drawWithOpenGL E f clip).1 ∧
    (self.drawWithOpenGL E f clip).2.currentEye = .eDrawingS3DLeft ∧
    ((⟨st, cm, f.currentEye, tc⟩ : RenderState).run (self.drawWithOpenGL E f clip).1).currentEye
      = .eDrawingS3DLeft ∧
    ((⟨st, cm, f.currentEye, tc⟩ : RenderState).run (self.drawWithOpenGL E f clip).1).colorMask
      = maskAll := by
  rw [drawWithOpenGL_anaglyph_trace E self f clip hS hM hF]
  refine ⟨?_, ?_, rfl, ?_, ?_⟩
  · simp [drawPasses, RenderState.step, RenderState.gl, foldl_gl_drawWithOpenGL2, maskRed,
      maskCyan]
  · simp [glCalls, stencil_not_mem_drawWithOpenGL2]
  · simp [RenderState.run, RenderState.step, RenderState.gl, foldl_gl_drawWithOpenGL2]
  · simp [RenderState.run, RenderState.step, RenderState.gl, foldl_gl_drawWithOpenGL2, maskAll]

/-- C8 at the layer `{TopBottom, RightFirst, Stereo}`, anaglyph output, one
clip rectangle, stencil test off and colour mask all-channels on entry. -/
theorem drawWithOpenGL_anaglyph_witness :
    (drawPasses ⟨false, maskAll, .eDrawingS3DLeft, []⟩
        ((sampleLayer eTopBottom eRightViewFirst eRenderStereo 0).drawWithOpenGL sampleEnv
          (sampleFlinger .Anaglyph .eDrawingS3DLeft) [⟨0, 0, 800, 480⟩]).1).map
        (fun p => (p.1.colorMask, p.1.currentEye, p.2))
      = [ (maskRed, .eDrawingS3DLeft, false), (maskCyan, .eDrawingS3DRight, true) ] :=
  (drawWithOpenGL_anaglyph sampleEnv (sampleLayer eTopBottom eRightViewFirst eRenderStereo 0)
    (sampleFlinger .Anaglyph .eDrawingS3DLeft) [⟨0, 0, 800, 480⟩] false maskAll []
    rfl rfl rfl).1

theorem count_glDrawArrays_drawWithOpenGL2 (E : DrawEnv) (self : OmapLayer)
    (f : S3DSurfaceFlinger) (r : Rect) (h : Bool) :
    (self.drawWithOpenGL2 E f [r] h).count GLCmd.glDrawArrays = 1 := by
  unfold OmapLayer.drawWithOpenGL2 OmapLayer.blendSetup
  split_ifs <;> simp [drawRects, List.count_cons]

/-- C9.  For a layer configured `{SideBySide, LeftFirst, Stereo}`, output
format `Anaglyph`, `currentEye` `Left` on entry and a clip region of one
rectangle: `drawWithOpenGL(clip)` issues exactly two `glDrawArrays` calls, the
first under the red mask with texture coordinates spanning `u` in `[0, 0.5]`
and all of `v`, the second under the cyan mask with `u` in `[0.5, 1]` and all
of `v`; on return the colour mask is all-channels. -/
theorem drawWithOpenGL_anaglyph_sideBySide (E : DrawEnv) (self : OmapLayer)
    (f : S3DSurfaceFlinger) (r : Rect) (st : Bool) (cm : Bool × Bool × Bool × Bool)
    (tc : List TexCoords)
    (hT : self.mType = eSideBySide) (hO : self.mViewOrder = eLeftViewFirst)
    (hM : self.mRenderMode = eRenderStereo) (hF : f.outputFormat = .Anaglyph)
    (hE : f.currentEye = .eDrawingS3DLeft) :
    (glCalls (self.drawWithOpenGL E f [r]).1).count GLCmd.glDrawArrays = 2 ∧
    (drawCalls ⟨st, cm, f.currentEye, tc⟩ (self.drawWithOpenGL E f [r]).1).map
        (fun s => (s.colorMask, s.texCoords))
      = [ (maskRed, [⟨0, 1⟩, ⟨0, 0⟩, ⟨1/2, 0⟩, ⟨1/2, 1⟩]),
          (maskCyan, [⟨1/2, 1⟩, ⟨1/2, 0⟩, ⟨1, 0⟩, ⟨1, 1⟩]) ] ∧
    texSpan [⟨0, 1⟩, ⟨0, 0⟩, ⟨1/2, 0⟩, ⟨1/2, 1⟩] = ((0, 1/2), (0, 1)) ∧
    texSpan [⟨1/2, 1⟩, ⟨1/2, 0⟩, ⟨1, 0⟩, ⟨1, 1⟩] = ((1/2, 1), (0, 1)) ∧
    ((⟨st, cm, f.currentEye, tc⟩ : RenderState).run (self.drawWithOpenGL E f [r]).1).colorMask
      = maskAll := by
  have hS : self.isS3D = true := by simp [OmapLayer.isS3D, hT]
  have h1 : self.isDrawingFirstHalf (if f.isDrawingLeft then eRenderLeft else eRenderRight)
      = true := by
    simp [OmapLayer.isDrawingFirstHalf, S3DSurfaceFlinger.isDrawingLeft, hO, hE]
  have h2 : self.isDrawingFirstHalf eRenderRight = false := by
    simp [OmapLayer.isDrawingFirstHalf, hO]
  have t1 : self.texCoords true = [⟨0, 1⟩, ⟨0, 0⟩, ⟨1/2, 0⟩, ⟨1/2, 1⟩] := by
    simp [OmapLayer.texCoords, hS, hT]
  have t2 : self.texCoords false = [⟨1/2, 1⟩, ⟨1/2, 0⟩, ⟨1, 0⟩, ⟨1, 1⟩] := by
    simp [OmapLayer.texCoords, hS, hT]
  rw [drawWithOpenGL_anaglyph_trace E self f [r] hS hM hF, h1, h2]
  refine ⟨?_, ?_, ?_, ?_, ?_⟩
  · simp [glCalls, List.count_cons, count_glDrawArrays_drawWithOpenGL2]
  · simp [drawCalls, glDraws, RenderState.step, RenderState.gl, foldl_gl_drawWithOpenGL2,
      glDraws_drawWithOpenGL2, t1, t2, maskRed, maskCyan]
  · norm_num [texSpan]
  · norm_num [texSpan]
  · simp [RenderState.run, RenderState.step, RenderState.gl, foldl_gl_drawWithOpenGL2, maskAll]

/-- C9 at the sample layer `{SideBySide, LeftFirst, Stereo}` and the clip
rectangle `(0, 0, 800, 480)`. -/
theorem drawWithOpenGL_anaglyph_sideBySide_witness :
    (drawCalls ⟨false, maskAll, .eDrawingS3DLeft, []⟩
        ((sampleLayer eSideBySide eLeftViewFirst eRenderStereo 0).drawWithOpenGL sampleEnv
          (sampleFlinger .Anaglyph .eDrawingS3DLeft) [⟨0, 0, 800, 480⟩]).1).map
        (fun s => (s.colorMask, s.texCoords))
      = [ (maskRed, [⟨0, 1⟩, ⟨0, 0⟩, ⟨1/2, 0⟩, ⟨1/2, 1⟩]),
          (maskCyan, [⟨1/2, 1⟩, ⟨1/2, 0⟩, ⟨1, 0⟩, ⟨1, 1⟩]) ] :=
  (drawWithOpenGL_anaglyph_sideBySide sampleEnv
    (sampleLayer eSideBySide eLeftViewFirst eRenderStereo 0)
    (sampleFlinger .Anaglyph .eDrawingS3DLeft) ⟨0, 0, 800, 480⟩ false maskAll []
    rfl rfl rfl rfl rfl).2.1

/-- C10.  In the two-argument `drawWithOpenGL`, whatever the clip region and
the other members of the layer, a `TopBottom` layer hands `glTexCoordPointer`
for the first half the texture rectangle `u` in `[0, 1]`, `v` in `[0.5, 1]` and for
the second half `u` in `[0, 1]`, `v` in `[0, 0.5]`; a `SideBySide` layer uses
for the first half `u` in `[0, 0.5]`, `v` in `[0, 1]` and for the second half
`u` in `[0.5, 1]`, `v` in `[0, 1]`.  In both layouts the two rectangles
together are the whole unit square and meet only in the line where they
touch. -/
theorem drawWithOpenGL2_halves (E : DrawEnv) (self : OmapLayer) (f : S3DSurfaceFlinger)
    (clip : Region) :
    texCoordArrays (({ self with mType := eTopBottom } : OmapLayer).drawWithOpenGL2 E f clip true)
      = [[⟨0, 1⟩, ⟨0, 1/2⟩, ⟨1, 1/2⟩, ⟨1, 1⟩]] ∧
    texCoordArrays (({ self with mType := eTopBottom } : OmapLayer).drawWithOpenGL2 E f clip false)
      = [[⟨0, 1/2⟩, ⟨0, 0⟩, ⟨1, 0⟩, ⟨1, 1/2⟩]] ∧
    texCoordArrays (({ self with mType := eSideBySide } : OmapLayer).drawWithOpenGL2 E f clip true)
      = [[⟨0, 1⟩, ⟨0, 0⟩, ⟨1/2, 0⟩, ⟨1/2, 1⟩]] ∧
    texCoordArrays (({ self with mType := eSideBySide } : OmapLayer).drawWithOpenGL2 E f clip false)
      = [[⟨1/2, 1⟩, ⟨1/2, 0⟩, ⟨1, 0⟩, ⟨1, 1⟩]] ∧
    texSpan [⟨0, 1⟩, ⟨0, 1/2⟩, ⟨1, 1/2⟩, ⟨1, 1⟩] = ((0, 1), (1/2, 1)) ∧
    texSpan [⟨0, 1/2⟩, ⟨0, 0⟩, ⟨1, 0⟩, ⟨1, 1/2⟩] = ((0, 1), (0, 1/2)) ∧
    texSpan [⟨0, 1⟩, ⟨0, 0⟩, ⟨1/2, 0⟩, ⟨1/2, 1⟩] = ((0, 1/2), (0, 1)) ∧
    texSpan [⟨1/2, 1⟩, ⟨1/2, 0⟩, ⟨1, 0⟩, ⟨1, 1⟩] = ((1/2, 1), (0, 1)) ∧
    spanRect ((0, 1), (1/2, 1)) ∪ spanRect ((0, 1), (0, 1/2)) = unitSquare ∧
    spanRect ((0, 1), (1/2, 1)) ∩ spanRect ((0, 1), (0, 1/2))
      = {p | 0 ≤ p.1 ∧ p.1 ≤ 1 ∧ p.2 = 1/2} ∧
    spanRect ((0, 1/2), (0, 1)) ∪ spanRect ((1/2, 1), (0, 1)) = unitSquare ∧
    spanRect ((0, 1/2), (0, 1)) ∩ spanRect ((1/2, 1), (0, 1))
      = {p | p.1 = 1/2 ∧ 0 ≤ p.2 ∧ p.2 ≤ 1} := by
  refine ⟨?_, ?_, ?_, ?_, ?_, ?_, ?_, ?_, ?_, ?_, ?_, ?_⟩
  · rw [texCoordArrays_drawWithOpenGL2]
    simp [OmapLayer.texCoords, OmapLayer.isS3D]
  · rw [texCoordArrays_drawWithOpenGL2]
    simp [OmapLayer.texCoords, OmapLayer.isS3D]
  · rw [texCoordArrays_drawWithOpenGL2]
    simp [OmapLayer.texCoords, OmapLayer.isS3D]
  · rw [texCoordArrays_drawWithOpenGL2]
    simp [OmapLayer.texCoords, OmapLayer.isS3D]
  · norm_num [texSpan]
  · norm_num [texSpan]
  · norm_num [texSpan]
  · norm_num [texSpan]
  · ext ⟨u, v⟩
    simp only [spanRect, unitSquare, Set.mem_union, Set.mem_setOf_eq]
    push_cast
    constructor
    · rintro (⟨a, b, c, d⟩ | ⟨a, b, c, d⟩) <;> exact ⟨a, b, by linarith, by linarith⟩
    · rintro ⟨a, b, c, d⟩
      rcases le_total v (1/2) with hv | hv
      · exact Or.inr ⟨a, b, c, hv⟩
      · exact Or.inl ⟨a, b, hv, d⟩
  · ext ⟨u, v⟩
    simp only [spanRect, Set.mem_inter_iff, Set.mem_setOf_eq]
    push_cast
    constructor
    · rintro ⟨⟨a, b, c, _⟩, ⟨_, _, _, d⟩⟩
      exact ⟨a, b, le_antisymm d c⟩
    · rintro ⟨a, b, c⟩
      subst c
      exact ⟨⟨a, b, le_refl _, by norm_num⟩, ⟨a, b, by norm_num, le_refl _⟩⟩
  · ext ⟨u, v⟩
    simp only [spanRect, unitSquare, Set.mem_union, Set.mem_setOf_eq]
    push_cast
    constructor
    · rintro (⟨a, b, c, d⟩ | ⟨a, b, c, d⟩) <;> exact ⟨by linarith, by linarith, c, d⟩
    · rintro ⟨a, b, c, d⟩
      rcases le_total u (1/2) with hu | hu
      · exact Or.inl ⟨a, hu, c, d⟩
      · exact Or.inr ⟨hu, b, c, d⟩
  · ext ⟨u, v⟩
    simp only [spanRect, Set.mem_inter_iff, Set.mem_setOf_eq]
    push_cast
    constructor
    · rintro ⟨⟨_, b, c, d⟩, ⟨a, _, _, _⟩⟩
      exact ⟨le_antisymm b a, c, d⟩
    · rintro ⟨a, c, d⟩
      subst a
      exact ⟨⟨by norm_num, le_refl _, c, d⟩, ⟨le_refl _, by norm_num, c, d⟩⟩

/-! ## The one-argument `drawWithOpenGL`, step by step -/

theorem drawWithOpenGL_of_bypass {self : OmapLayer} {f : S3DSurfaceFlinger}
    (h : self.bypass f = true) (E : DrawEnv) (clip : Region) :
    self.drawWithOpenGL E f clip = ([Ev.layerBaseDraw clip], f) := by
  unfold OmapLayer.drawWithOpenGL
  unfold OmapLayer.bypass at h
  rw [if_pos h]

theorem drawWithOpenGL_of_not_bypass {self : OmapLayer} {f : S3DSurfaceFlinger}
    (h : self.bypass f = false) (E : DrawEnv) (clip : Region) :
    self.drawWithOpenGL E f clip =
      (filterCalls ++ self.firstState f ++
         [.drawPass (self.isDrawingFirstHalf (self.viewToRender f))
            (self.drawWithOpenGL2 E f clip (self.isDrawingFirstHalf (self.viewToRender f)))] ++
         (if self.drawsSecond f then self.secondDraw E f clip else []) ++ restoreCalls,
       if self.drawsSecond f then
         (f.setDrawState .eDrawingS3DRight).setDrawState .eDrawingS3DLeft
       else f) := by
  unfold OmapLayer.drawWithOpenGL
  unfold OmapLayer.bypass at h
  rw [if_neg (by rw [h]; simp)]
  by_cases hs : self.drawsSecond f = true
  · have hs' := hs
    unfold OmapLayer.drawsSecond at hs'
    simp only [hs, hs', if_true]
    rfl
  · have hs' := hs
    unfold OmapLayer.drawsSecond at hs'
    simp only [hs, hs', if_false]
    rfl

theorem passHalves_append (a b : List Ev) : passHalves (a ++ b) = passHalves a ++ passHalves b := by
  induction a with
  | nil => rfl
  | cons e t ih => cases e <;> simp [passHalves, ih]

theorem setDrawStateCalls_append (a b : List Ev) :
    setDrawStateCalls (a ++ b) = setDrawStateCalls a ++ setDrawStateCalls b := by
  induction a with
  | nil => rfl
  | cons e t ih => cases e <;> simp [setDrawStateCalls, ih]

theorem eyeSchedule_append (a b : List Ev) :
    eyeSchedule (a ++ b) = eyeSchedule a ++ eyeSchedule b := by
  induction a with
  | nil => rfl
  | cons e t ih => cases e <;> simp [eyeSchedule, ih]

theorem glCalls_append (a b : List Ev) : glCalls (a ++ b) = glCalls a ++ glCalls b := by
  induction a with
  | nil => rfl
  | cons e t ih => cases e <;> simp [glCalls, ih]

theorem texCoordArrays_append (a b : List GLCmd) :
    texCoordArrays (a ++ b) = texCoordArrays a ++ texCoordArrays b := by
  induction a with
  | nil => rfl
  | cons c t ih => cases c <;> simp [texCoordArrays, ih]

theorem run_append (s : RenderState) (a b : List Ev) : s.run (a ++ b) = (s.run a).run b := by
  simp [RenderState.run, List.foldl_append]

theorem replay_append (f : S3DSurfaceFlinger) (a b : List Ev) :
    f.replay (a ++ b) = (f.replay a).replay b := by
  simp [S3DSurfaceFlinger.replay, List.foldl_append]

theorem firstState_cases (self : OmapLayer) (f : S3DSurfaceFlinger) :
    self.firstState f = [] ∨ self.firstState f = [.gl (.glEnable .GL_STENCIL_TEST)] ∨
      self.firstState f = [.gl (.glColorMask true false false true)] := by
  unfold OmapLayer.firstState
  split_ifs <;> simp

theorem passHalves_firstState (self : OmapLayer) (f : S3DSurfaceFlinger) :
    passHalves (self.firstState f) = [] := by
  rcases firstState_cases self f with h | h | h <;> rw [h] <;> rfl

theorem setDrawStateCalls_firstState (self : OmapLayer) (f : S3DSurfaceFlinger) :
    setDrawStateCalls (self.firstState f) = [] := by
  rcases firstState_cases self f with h | h | h <;> rw [h] <;> rfl

theorem eyeSchedule_firstState (self : OmapLayer) (f : S3DSurfaceFlinger) :
    eyeSchedule (self.firstState f) = [] := by
  rcases firstState_cases self f with h | h | h <;> rw [h] <;> rfl

theorem replay_firstState (self : OmapLayer) (f g : S3DSurfaceFlinger) :
    g.replay (self.firstState f) = g := by
  rcases firstState_cases self f with h | h | h <;> rw [h] <;> rfl

theorem passHalves_secondDraw (E : DrawEnv) (self : OmapLayer) (f : S3DSurfaceFlinger)
    (clip : Region) :
    passHalves (self.secondDraw E f clip) = [self.isDrawingFirstHalf eRenderRight] := by
  unfold OmapLayer.secondDraw
  split_ifs <;> simp [passHalves]

theorem setDrawStateCalls_secondDraw (E : DrawEnv) (self : OmapLayer) (f : S3DSurfaceFlinger)
    (clip : Region) :
    setDrawStateCalls (self.secondDraw E f clip)
      = [.eDrawingS3DRight, .eDrawingS3DLeft] := by
  unfold OmapLayer.secondDraw
  split_ifs <;> simp [setDrawStateCalls]

theorem eyeSchedule_secondDraw (E : DrawEnv) (self : OmapLayer) (f : S3DSurfaceFlinger)
    (clip : Region) :
    eyeSchedule (self.secondDraw E f clip)
      = [some .eDrawingS3DRight, none, some .eDrawingS3DLeft] := by
  unfold OmapLayer.secondDraw
  split_ifs <;> simp [eyeSchedule]

theorem replay_secondDraw (E : DrawEnv) (self : OmapLayer) (f g : S3DSurfaceFlinger)
    (clip : Region) :
    g.replay (self.secondDraw E f clip)
      = (g.setDrawState .eDrawingS3DRight).setDrawState .eDrawingS3DLeft := by
  unfold OmapLayer.secondDraw
  split_ifs <;> simp [S3DSurfaceFlinger.replay, S3DSurfaceFlinger.apply]

theorem drawWithOpenGL_replay (E : DrawEnv) (self : OmapLayer) (f : S3DSurfaceFlinger)
    (clip : Region) :
    (self.drawWithOpenGL E f clip).2 = f.replay (self.drawWithOpenGL E f clip).1 := by
  cases h : self.bypass f with
  | true => rw [drawWithOpenGL_of_bypass h]; rfl
  | false =>
    rw [drawWithOpenGL_of_not_bypass h]
    simp only [replay_append, replay_firstState]
    split_ifs
    · rw [replay_secondDraw]; rfl
    · rfl

/-! ## Claims on the eye selection and the draw sequence -/

/-- C11.  For a layer whose layout type is `RowInterleaved` or
`ColInterleaved`, the two-argument `drawWithOpenGL` hands `glTexCoordPointer`
the unmodified full quad `(0,1), (0,0), (1,0), (1,1)` for both values of
`drawFirstHalf`, whatever the other members and the clip region: the same
coordinates as the layer with layout type `Mono`. -/
theorem drawWithOpenGL2_interleaved_coords (E : DrawEnv) (self : OmapLayer)
    (f : S3DSurfaceFlinger) (clip : Region) (drawFirstHalf : Bool) :
    texCoordArrays (({ self with mType := eRowInterleaved } : OmapLayer).drawWithOpenGL2
        E f clip drawFirstHalf) = [[⟨0, 1⟩, ⟨0, 0⟩, ⟨1, 0⟩, ⟨1, 1⟩]] ∧
    texCoordArrays (({ self with mType := eColInterleaved } : OmapLayer).drawWithOpenGL2
        E f clip drawFirstHalf) = [[⟨0, 1⟩, ⟨0, 0⟩, ⟨1, 0⟩, ⟨1, 1⟩]] ∧
    texCoordArrays (({ self with mType := eMono } : OmapLayer).drawWithOpenGL2
        E f clip drawFirstHalf) = [[⟨0, 1⟩, ⟨0, 0⟩, ⟨1, 0⟩, ⟨1, 1⟩]] := by
  refine ⟨?_, ?_, ?_⟩ <;> rw [texCoordArrays_drawWithOpenGL2] <;>
    cases drawFirstHalf <;> simp [OmapLayer.texCoords, OmapLayer.isS3D]

/-- C12.  On the non-bypass path the first draw pass draws the half of
`viewToRender`, and `viewToRender` is the layer's own render mode when the
layer is stereoscopic, its render mode is not `Stereo`, its render mode differs
from the default selection (`RenderLeft` if `isDrawingLeft()`, else
`RenderRight`) and the output format is frame-packing or mono; in every other
case it is the default selection, so it departs from the default selection
exactly under these conditions.  Under anaglyph or interleave output it is
always the default selection. -/
theorem drawWithOpenGL_viewToRender (E : DrawEnv) (self : OmapLayer) (f : S3DSurfaceFlinger)
    (clip : Region) (h : self.bypass f = false) :
    (passHalves (self.drawWithOpenGL E f clip).1).head?
      = some (self.isDrawingFirstHalf (self.viewToRender f)) ∧
    self.viewToRender f =
      (if self.isS3D = true ∧ self.mRenderMode ≠ eRenderStereo ∧
          self.mRenderMode ≠ f.defaultView ∧
          (f.isFramePackingRender = true ∨ f.isMonoRender = true)
       then self.mRenderMode else f.defaultView) ∧
    (self.viewToRender f ≠ f.defaultView ↔
      (self.isS3D = true ∧ self.mRenderMode ≠ eRenderStereo ∧
        self.mRenderMode ≠ f.defaultView ∧
        (f.isFramePackingRender = true ∨ f.isMonoRender = true))) ∧
    (f.outputFormat = .Anaglyph ∨ f.outputFormat = .Interleave →
      self.viewToRender f = f.defaultView) ∧
    f.defaultView = (if f.isDrawingLeft = true then eRenderLeft else eRenderRight) := by
  have hv : self.viewToRender f =
      (if self.isS3D = true ∧ self.mRenderMode ≠ eRenderStereo ∧
          self.mRenderMode ≠ f.defaultView ∧
          (f.isFramePackingRender = true ∨ f.isMonoRender = true)
       then self.mRenderMode else f.defaultView) := by
    unfold OmapLayer.viewToRender
    by_cases h1 : self.isS3D = true <;> by_cases h2 : self.mRenderMode = eRenderStereo <;>
      by_cases h3 : self.mRenderMode = f.defaultView <;>
      by_cases h4 : f.isFramePackingRender = true <;>
      by_cases h5 : f.isMonoRender = true <;> simp [h1, h2, h3, h4, h5]
  refine ⟨?_, hv, ?_, ?_, rfl⟩
  · rw [drawWithOpenGL_of_not_bypass h]
    simp [passHalves_append, passHalves_firstState, passHalves, filterCalls]
  · rw [hv]
    constructor
    · intro hne
      by_contra hc
      rw [if_neg hc] at hne
      exact hne rfl
    · intro hc
      rw [if_pos hc]
      exact hc.2.2.1
  · intro ho
    rw [hv, if_neg]
    rintro ⟨_, _, _, h4⟩
    rcases ho with ho | ho <;>
      simp [S3DSurfaceFlinger.isFramePackingRender, S3DSurfaceFlinger.isMonoRender, ho] at h4

/-- C12 at a `SideBySide` layer forced to `RenderRight` while the left eye is
drawn: under frame-packing output the first pass draws the layer's own view
(the second half), under anaglyph output the default one. -/
theorem drawWithOpenGL_viewToRender_witness :
    (passHalves ((sampleLayer eSideBySide eLeftViewFirst eRenderRight 0).drawWithOpenGL
        sampleEnv (sampleFlinger .FramePacking .eDrawingS3DLeft) []).1).head? = some false ∧
    (sampleLayer eSideBySide eLeftViewFirst eRenderRight 0).viewToRender
        (sampleFlinger .FramePacking .eDrawingS3DLeft) = eRenderRight ∧
    (sampleLayer eSideBySide eLeftViewFirst eRenderRight 0).viewToRender
        (sampleFlinger .Anaglyph .eDrawingS3DLeft) = eRenderLeft :=
  ⟨(drawWithOpenGL_viewToRender sampleEnv (sampleLayer eSideBySide eLeftViewFirst eRenderRight 0)
      (sampleFlinger .FramePacking .eDrawingS3DLeft) [] rfl).1, rfl, rfl⟩

/-- C13.  On the non-bypass path a second draw pass happens exactly when the
layer is stereoscopic, its render mode is `Stereo`, and the output format is
neither frame-packing nor mono.  When it happens, the calls after the first
draw pass are: `setDrawState(Right)`; under anaglyph output only, the colour
mask green + blue + alpha; one draw pass of the half
`isDrawingFirstHalf(RenderRight)`; `setDrawState(Left)`.  When it does not
happen, exactly one draw pass is made and `setDrawState` is never called. -/
theorem drawWithOpenGL_second_draw (E : DrawEnv) (self : OmapLayer) (f : S3DSurfaceFlinger)
    (clip : Region) (h : self.bypass f = false) :
    (self.drawWithOpenGL E f clip).1 =
      filterCalls ++ self.firstState f ++
        [.drawPass (self.isDrawingFirstHalf (self.viewToRender f))
          (self.drawWithOpenGL2 E f clip (self.isDrawingFirstHalf (self.viewToRender f)))] ++
        (if self.isS3D = true ∧ self.mRenderMode = eRenderStereo ∧
            f.isFramePackingRender = false ∧ f.isMonoRender = false then
          [Ev.setDrawState .eDrawingS3DRight] ++
          (if f.isAnaglyphRender = true then [Ev.gl (.glColorMask false true true true)]
           else []) ++
          [.drawPass (self.isDrawingFirstHalf eRenderRight)
            (self.drawWithOpenGL2 E (f.setDrawState .eDrawingS3DRight) clip
              (self.isDrawingFirstHalf eRenderRight))] ++
          [Ev.setDrawState .eDrawingS3DLeft]
         else []) ++
        restoreCalls ∧
    ((passHalves (self.drawWithOpenGL E f clip).1).length = 2 ↔
      (self.isS3D = true ∧ self.mRenderMode = eRenderStereo ∧
        f.isFramePackingRender = false ∧ f.isMonoRender = false)) ∧
    (¬ (self.isS3D = true ∧ self.mRenderMode = eRenderStereo ∧
        f.isFramePackingRender = false ∧ f.isMonoRender = false) →
      (passHalves (self.drawWithOpenGL E f clip).1).length = 1 ∧
      setDrawStateCalls (self.drawWithOpenGL E f clip).1 = []) := by
  have hc : (self.drawsSecond f = true) ↔
      (self.isS3D = true ∧ self.mRenderMode = eRenderStereo ∧
        f.isFramePackingRender = false ∧ f.isMonoRender = false) := by
    unfold OmapLayer.drawsSecond
    simp [and_assoc]
  rw [drawWithOpenGL_of_not_bypass h]
  by_cases hs : self.drawsSecond f = true
  · have hs' := hc.1 hs
    refine ⟨?_, ?_, ?_⟩
    · simp only [hs, if_true, if_pos hs']
      rfl
    · simp only [hs, if_true, passHalves_append, passHalves_firstState,
        passHalves_secondDraw]
      simp [passHalves, filterCalls, restoreCalls, hs']
    · intro hn
      exact absurd hs' hn
  · have hs' : ¬ (self.isS3D = true ∧ self.mRenderMode = eRenderStereo ∧
        f.isFramePackingRender = false ∧ f.isMonoRender = false) := fun x => hs (hc.2 x)
    refine ⟨?_, ?_, ?_⟩
    · simp only [hs, if_neg hs']
      rfl
    · simp only [hs, if_false, passHalves_append, passHalves_firstState]
      simp [passHalves, filterCalls, restoreCalls, hs']
    · intro _
      simp only [hs, if_false, passHalves_append, passHalves_firstState,
        setDrawStateCalls_append, setDrawStateCalls_firstState]
      simp [passHalves, setDrawStateCalls, filterCalls, restoreCalls]

/-- C13 at the layer `{TopBottom, LeftFirst, Stereo}` under interleave output:
two draw passes, `setDrawState(Right)` then `setDrawState(Left)`. -/
theorem drawWithOpenGL_second_draw_witness :
    (passHalves ((sampleLayer eTopBottom eLeftViewFirst eRenderStereo 0).drawWithOpenGL
        sampleEnv (sampleFlinger .Interleave .eDrawingS3DLeft) []).1).length = 2 :=
  (drawWithOpenGL_second_draw sampleEnv (sampleLayer eTopBottom eLeftViewFirst eRenderStereo 0)
    (sampleFlinger .Interleave .eDrawingS3DLeft) [] rfl).2.1.2 ⟨rfl, rfl, rfl, rfl⟩

/-- C14.  Whenever `drawWithOpenGL(clip)` does not take the bypass path, its
last two calls, after all draw passes and every `setDrawState`, set the colour
mask to all four channels and disable the stencil test; so for every state on
entry the colour mask is all-channels and the stencil test is disabled on
return, whichever of the stencil, anaglyph and second-draw branches ran. -/
theorem drawWithOpenGL_restore (E : DrawEnv) (self : OmapLayer) (f : S3DSurfaceFlinger)
    (clip : Region) (h : self.bypass f = false) :
    (∃ pre, (self.drawWithOpenGL E f clip).1 = pre ++
        [.gl (.glColorMask true true true true), .gl (.glDisable .GL_STENCIL_TEST)] ∧
      passHalves pre = passHalves (self.drawWithOpenGL E f clip).1 ∧
      setDrawStateCalls pre = setDrawStateCalls (self.drawWithOpenGL E f clip).1 ∧
      glCalls (self.drawWithOpenGL E f clip).1 = glCalls pre ++
        [.glColorMask true true true true, .glDisable .GL_STENCIL_TEST]) ∧
    (∀ s : RenderState,
      (s.run (self.drawWithOpenGL E f clip).1).colorMask = maskAll ∧
      (s.run (self.drawWithOpenGL E f clip).1).stencilTest = false) := by
  rw [drawWithOpenGL_of_not_bypass h]
  refine ⟨⟨_, rfl, ?_, ?_, ?_⟩, ?_⟩
  · rw [passHalves_append _ restoreCalls]
    simp [restoreCalls, passHalves]
  · rw [setDrawStateCalls_append _ restoreCalls]
    simp [restoreCalls, setDrawStateCalls]
  · rw [glCalls_append _ restoreCalls]
    rfl
  · intro s
    rw [run_append _ _ restoreCalls]
    exact ⟨rfl, rfl⟩

/-- C14 at a `Mono` layer under frame-packing output, entered with the stencil
test on and the red mask set. -/
theorem drawWithOpenGL_restore_witness :
    ((⟨true, maskRed, .eDrawingS3DLeft, []⟩ : RenderState).run
        ((sampleLayer eMono eLeftViewFirst eRenderLeft 0).drawWithOpenGL sampleEnv
          (sampleFlinger .FramePacking .eDrawingS3DRight) [⟨0, 0, 10, 10⟩]).1).colorMask
      = maskAll ∧
    ((⟨true, maskRed, .eDrawingS3DLeft, []⟩ : RenderState).run
        ((sampleLayer eMono eLeftViewFirst eRenderLeft 0).drawWithOpenGL sampleEnv
          (sampleFlinger .FramePacking .eDrawingS3DRight) [⟨0, 0, 10, 10⟩]).1).stencilTest
      = false :=
  (drawWithOpenGL_restore sampleEnv (sampleLayer eMono eLeftViewFirst eRenderLeft 0)
    (sampleFlinger .FramePacking .eDrawingS3DRight) [⟨0, 0, 10, 10⟩] rfl).2
      ⟨true, maskRed, .eDrawingS3DLeft, []⟩

/-- C15.  `drawWithOpenGL(clip)` preserves `currentEye == Left`: for every
layer, output format and clip region, when `currentEye` is `Left` on entry it
is `Left` on return (the returned state being the one the recorded calls
produce); and the `setDrawState` calls and draw passes of the call are either
none, or one draw pass, or a draw pass, `setDrawState(Right)`, one draw pass,
`setDrawState(Left)`, so that every `setDrawState(Right)` is followed after
exactly one draw pass by `setDrawState(Left)`. -/
theorem drawWithOpenGL_currentEye (E : DrawEnv) (self : OmapLayer) (f : S3DSurfaceFlinger)
    (clip : Region) :
    (f.currentEye = .eDrawingS3DLeft →
      (self.drawWithOpenGL E f clip).2.currentEye = .eDrawingS3DLeft ∧
      (f.replay (self.drawWithOpenGL E f clip).1).currentEye = .eDrawingS3DLeft) ∧
    (eyeSchedule (self.drawWithOpenGL E f clip).1 = [] ∨
     eyeSchedule (self.drawWithOpenGL E f clip).1 = [none] ∨
     eyeSchedule (self.drawWithOpenGL E f clip).1
       = [none, some .eDrawingS3DRight, none, some .eDrawingS3DLeft]) ∧
    rightsRestored (eyeSchedule (self.drawWithOpenGL E f clip).1) = true := by
  have hsched : eyeSchedule (self.drawWithOpenGL E f clip).1 = [] ∨
      eyeSchedule (self.drawWithOpenGL E f clip).1 = [none] ∨
      eyeSchedule (self.drawWithOpenGL E f clip).1
        = [none, some .eDrawingS3DRight, none, some .eDrawingS3DLeft] := by
    cases h : self.bypass f with
    | true => left; rw [drawWithOpenGL_of_bypass h]; rfl
    | false =>
      right
      rw [drawWithOpenGL_of_not_bypass h]
      simp only [eyeSchedule_append, eyeSchedule_firstState]
      by_cases hs : self.drawsSecond f = true
      · right
        simp only [hs, if_true, eyeSchedule_secondDraw]
        rfl
      · left
        simp only [hs, if_false]
        rfl
  refine ⟨?_, hsched, ?_⟩
  · intro he
    rw [← drawWithOpenGL_replay]
    refine ⟨?_, ?_⟩ <;>
    · cases h : self.bypass f with
      | true => rw [drawWithOpenGL_of_bypass h]; exact he
      | false =>
        rw [drawWithOpenGL_of_not_bypass h]
        split_ifs
        · rfl
        · exact he
  · rcases hsched with h | h | h <;> rw [h] <;> rfl

/-- C19.  For a layer whose layout type is `Mono` under frame-packing output,
for every render mode, view order, `currentEye` and clip region:
`drawWithOpenGL(clip)` makes the two filter calls, exactly one draw pass (of
the half of the default view) and the two restoring calls; that pass uses the
unmodified full texture-coordinate quad; no call enables the stencil test; the
only colour mask set is the all-channels one; `viewToRender` is the default
selection, not the render mode; and `setDrawState` is never called. -/
theorem drawWithOpenGL_mono_framePacking (E : DrawEnv) (self : OmapLayer)
    (f : S3DSurfaceFlinger) (clip : Region)
    (hT : self.mType = eMono) (hF : f.outputFormat = .FramePacking) :
    self.drawWithOpenGL E f clip =
      (filterCalls ++
        [.drawPass (self.isDrawingFirstHalf f.defaultView)
          (self.drawWithOpenGL2 E f clip (self.isDrawingFirstHalf f.defaultView))] ++
        restoreCalls, f) ∧
    (passHalves (self.drawWithOpenGL E f clip).1).length = 1 ∧
    texCoordArrays (glCalls (self.drawWithOpenGL E f clip).1)
      = [[⟨0, 1⟩, ⟨0, 0⟩, ⟨1, 0⟩, ⟨1, 1⟩]] ∧
    GLCmd.glEnable .GL_STENCIL_TEST ∉ glCalls (self.drawWithOpenGL E f clip).1 ∧
    (∀ r g b a, GLCmd.glColorMask r g b a ∈ glCalls (self.drawWithOpenGL E f clip).1 →
      (r, g, b, a) = maskAll) ∧
    self.viewToRender f = f.defaultView ∧
    setDrawStateCalls (self.drawWithOpenGL E f clip).1 = [] := by
  have hS : self.isS3D = false := by simp [OmapLayer.isS3D, hT]
  have hb : self.bypass f = false := by
    simp [OmapLayer.bypass, hS, S3DSurfaceFlinger.isDefaultRender,
      S3DSurfaceFlinger.isFramePackingRender, hF]
  have hv : self.viewToRender f = f.defaultView := by
    simp [OmapLayer.viewToRender, hS]
  have h1 : self.firstState f = [] := by simp [OmapLayer.firstState, hS]
  have h2 : self.drawsSecond f = false := by simp [OmapLayer.drawsSecond, hS]
  have ht : self.drawWithOpenGL E f clip =
      (filterCalls ++
        [.drawPass (self.isDrawingFirstHalf f.defaultView)
          (self.drawWithOpenGL2 E f clip (self.isDrawingFirstHalf f.defaultView))] ++
        restoreCalls, f) := by
    rw [drawWithOpenGL_of_not_bypass hb, h1, h2, hv]
    simp
  have hq : self.texCoords (self.isDrawingFirstHalf f.defaultView)
      = [⟨0, 1⟩, ⟨0, 0⟩, ⟨1, 0⟩, ⟨1, 1⟩] := by
    simp [OmapLayer.texCoords, hS]
  have hm : ∀ r g b a, GLCmd.glColorMask r g b a ∉
      self.drawWithOpenGL2 E f clip (self.isDrawingFirstHalf f.defaultView) := by
    intro r g b a
    unfold OmapLayer.drawWithOpenGL2 OmapLayer.blendSetup
    have hr := not_mem_drawRects_of_ne E f clip (.glColorMask r g b a) (by simp) (by simp)
    split_ifs <;> simp [hr]
  rw [ht]
  refine ⟨rfl, ?_, ?_, ?_, ?_, hv, ?_⟩
  · simp [passHalves, filterCalls, restoreCalls]
  · simp [glCalls, filterCalls, restoreCalls, texCoordArrays_append,
      texCoordArrays_drawWithOpenGL2, texCoordArrays, hq]
  · simp [glCalls, filterCalls, restoreCalls, stencil_not_mem_drawWithOpenGL2]
  · intro r g b a hmem
    simp [glCalls, filterCalls, restoreCalls, hm] at hmem
    simp [maskAll, hmem]
  · simp [setDrawStateCalls, filterCalls, restoreCalls]

/-- C19 at a `Mono` layer with render mode `RenderRight` while the left eye is
drawn under frame-packing output. -/
theorem drawWithOpenGL_mono_framePacking_witness :
    passHalves ((sampleLayer eMono eRightViewFirst eRenderRight 0).drawWithOpenGL sampleEnv
        (sampleFlinger .FramePacking .eDrawingS3DLeft) [⟨0, 0, 10, 10⟩]).1 = [false] ∧
    (sampleLayer eMono eRightViewFirst eRenderRight 0).viewToRender
        (sampleFlinger .FramePacking .eDrawingS3DLeft) = eRenderLeft := by
  have h := drawWithOpenGL_mono_framePacking sampleEnv
    (sampleLayer eMono eRightViewFirst eRenderRight 0)
    (sampleFlinger .FramePacking .eDrawingS3DLeft) [⟨0, 0, 10, 10⟩] rfl rfl
  refine ⟨?_, h.2.2.2.2.2.1⟩
  rw [h.1]
  rfl

/-! ## Claims on registration and configuration -/

theorem mem_addS3DLayer_l (f : S3DSurfaceFlinger) (l x : Nat) :
    x ∈ (f.addS3DLayer_l l).activeLayers ↔ x = l ∨ x ∈ f.activeLayers := by
  unfold S3DSurfaceFlinger.addS3DLayer_l
  by_cases h : l ∈ f.activeLayers
  · simp only [h, if_true]
    constructor
    · exact Or.inr
    · rintro (rfl | hx)
      · exact h
      · exact hx
  · simp [h]

theorem mem_removeS3DLayer_l (f : S3DSurfaceFlinger) (l x : Nat) :
    x ∈ (f.removeS3DLayer_l l).activeLayers ↔ x ≠ l ∧ x ∈ f.activeLayers := by
  unfold S3DSurfaceFlinger.removeS3DLayer_l
  simp [List.mem_filter, and_comm]

theorem lockPageFlip_trace_of_some {K : S3DConsts} {self : OmapLayer} {t : S3DLayoutType}
    (h : switchLayoutType K (s3dTypeByte self.mCurrentLayout) = some t) (f : S3DSurfaceFlinger) :
    self.lockPageFlip K f =
      (if t ≠ self.mType ∧ t ≠ eMono then
        ([Ev.addS3DLayer_l self.id], { self with mType := t, mViewOrder := eLeftViewFirst },
          f.addS3DLayer_l self.id)
       else ([], { self with mType := t, mViewOrder := eLeftViewFirst }, f)) := by
  unfold OmapLayer.lockPageFlip
  simp only [h, orderBodies_eq]

theorem lockPageFlip_keeps_invariant (K : S3DConsts) (self : OmapLayer)
    (f : S3DSurfaceFlinger) (hinv : self.id ∈ f.activeLayers ↔ self.mType ≠ eMono) :
    (self.lockPageFlip K f).2.1.id ∈ (self.lockPageFlip K f).2.2.activeLayers ↔
      (self.lockPageFlip K f).2.1.mType ≠ eMono := by
  cases h : switchLayoutType K (s3dTypeByte self.mCurrentLayout) with
  | none => rw [lockPageFlip_of_none h]; exact hinv
  | some t =>
    have ht := (switchLayoutType_some h).1
    rw [lockPageFlip_trace_of_some h]
    by_cases hc : t ≠ self.mType ∧ t ≠ eMono
    · rw [if_pos hc]
      simp [mem_addS3DLayer_l, ht]
    · rw [if_neg hc]
      have he : t = self.mType := by
        by_contra hne
        exact hc ⟨hne, ht⟩
      simp only [ne_eq, ht, not_false_eq_true, iff_true]
      exact hinv.2 (he ▸ ht)

theorem runOps_keeps_invariant (K : S3DConsts) (ops : List LayerOp) :
    ∀ w : OmapLayer × S3DSurfaceFlinger, admissibleOps K ops w = true →
      (w.1.id ∈ w.2.activeLayers ↔ w.1.mType ≠ eMono) →
      ((runOps K ops w).1.id ∈ (runOps K ops w).2.activeLayers ↔
        (runOps K ops w).1.mType ≠ eMono) := by
  induction ops with
  | nil => intro w _ hinv; exact hinv
  | cons op rest ih =>
    intro w hadm hinv
    simp only [admissibleOps, Bool.and_eq_true] at hadm
    have hstep : (op.run K w).1.id ∈ (op.run K w).2.activeLayers ↔
        (op.run K w).1.mType ≠ eMono := by
      cases op with
      | setConfig t o m =>
        have h1 : (t = eMono ↔ w.1.mType = eMono) := by simpa using hadm.1
        show w.1.id ∈ w.2.activeLayers ↔ t ≠ eMono
        rw [hinv, ne_eq, ne_eq, h1]
      | lockPageFlip layout =>
        exact lockPageFlip_keeps_invariant K { w.1 with mCurrentLayout := layout } w.2 hinv
      | onRemoved =>
        have h1 : w.1.mType = eMono := by simpa using hadm.1
        show w.1.id ∈ (w.2.removeS3DLayer_l w.1.id).activeLayers ↔ w.1.mType ≠ eMono
        simp [mem_removeS3DLayer_l, h1]
    exact ih (op.run K w) hadm.2 hstep

/-- C16, as stated, fails.  `setConfig(SideBySide, LeftFirst, Stereo)` on a
freshly constructed, unregistered layer leaves it stereoscopic and not in
`activeLayers`, whatever the constants; so no constants make membership
equivalent to `layoutType != Mono` in every reachable state. -/
theorem activeLayers_counterexample :
    ((runOps sampleConsts [.setConfig eSideBySide eLeftViewFirst eRenderStereo]
        (OmapLayer.new 7 0 0 255 false true, sampleFlinger .Default .eDrawingS3DLeft)).1.mType
      = eSideBySide ∧
     7 ∉ (runOps sampleConsts [.setConfig eSideBySide eLeftViewFirst eRenderStereo]
        (OmapLayer.new 7 0 0 255 false true,
          sampleFlinger .Default .eDrawingS3DLeft)).2.activeLayers) ∧
    (¬ ∃ K : S3DConsts, ∀ ops : List LayerOp,
      ((runOps K ops (OmapLayer.new 7 0 0 255 false true,
          sampleFlinger .Default .eDrawingS3DLeft)).1.id ∈
        (runOps K ops (OmapLayer.new 7 0 0 255 false true,
          sampleFlinger .Default .eDrawingS3DLeft)).2.activeLayers ↔
       (runOps K ops (OmapLayer.new 7 0 0 255 false true,
          sampleFlinger .Default .eDrawingS3DLeft)).1.mType ≠ eMono)) := by
  refine ⟨⟨rfl, by decide⟩, ?_⟩
  rintro ⟨K, h⟩
  have h1 := h [.setConfig eSideBySide eLeftViewFirst eRenderStereo]
  have h2 : (7 : Nat) ∈ ([] : List Nat) :=
    h1.2 (fun hm => S3DLayoutType.noConfusion (hm : eSideBySide = eMono))
  simp at h2

/-- C16, amended.  In every state reached from a freshly constructed layer
(`{Mono, LeftFirst, Stereo}`, not registered) by a sequence of `lockPageFlip`
operations, of `setConfig` operations whose new layout type is `Mono` exactly
when the current one is, and of `onRemoved` operations on a layer whose layout
type is `Mono`, the layer is a member of `activeLayers` exactly when its layout
type is not `Mono`. -/
theorem activeLayers_invariant (K : S3DConsts) (ops : List LayerOp)
    (id mCurrentLayout sequence alpha : Nat) (premultiplied isOpaque : Bool)
    (f : S3DSurfaceFlinger) (hf : id ∉ f.activeLayers)
    (hadm : admissibleOps K ops
      (OmapLayer.new id mCurrentLayout sequence alpha premultiplied isOpaque, f) = true) :
    (runOps K ops
        (OmapLayer.new id mCurrentLayout sequence alpha premultiplied isOpaque, f)).1.id ∈
      (runOps K ops
        (OmapLayer.new id mCurrentLayout sequence alpha premultiplied isOpaque,
          f)).2.activeLayers ↔
    (runOps K ops
        (OmapLayer.new id mCurrentLayout sequence alpha premultiplied isOpaque, f)).1.mType
      ≠ eMono := by
  apply runOps_keeps_invariant K ops _ hadm
  show id ∈ f.activeLayers ↔ eMono ≠ eMono
  simp [hf]

/-- C16, amended, at the sample constants: page flips to `SideBySide` and
`TopBottom`, a reconfiguration to `ColInterleaved` and a failed page flip
leave the layer stereoscopic and registered. -/
theorem activeLayers_invariant_witness :
    (runOps sampleConsts
        [.lockPageFlip 0x00010000, .lockPageFlip 0x00020000,
         .setConfig eColInterleaved eRightViewFirst eRenderLeft, .lockPageFlip 0]
        (OmapLayer.new 7 0 0 255 false true, sampleFlinger .Default .eDrawingS3DLeft)).1.id ∈
      (runOps sampleConsts
        [.lockPageFlip 0x00010000, .lockPageFlip 0x00020000,
         .setConfig eColInterleaved eRightViewFirst eRenderLeft, .lockPageFlip 0]
        (OmapLayer.new 7 0 0 255 false true,
          sampleFlinger .Default .eDrawingS3DLeft)).2.activeLayers :=
  (activeLayers_invariant sampleConsts
    [.lockPageFlip 0x00010000, .lockPageFlip 0x00020000,
     .setConfig eColInterleaved eRightViewFirst eRenderLeft, .lockPageFlip 0]
    7 0 0 255 false true (sampleFlinger .Default .eDrawingS3DLeft) (by decide)
    (by decide)).2 (by decide)

theorem remove_not_mem_lockPageFlip (K : S3DConsts) (self : OmapLayer) (f : S3DSurfaceFlinger)
    (l : Nat) : Ev.removeS3DLayer_l l ∉ (self.lockPageFlip K f).1 := by
  cases h : switchLayoutType K (s3dTypeByte self.mCurrentLayout) with
  | none => rw [lockPageFlip_of_none h]; simp
  | some t =>
    rw [lockPageFlip_trace_of_some h]
    split_ifs <;> simp

theorem activeLayers_subset_lockPageFlip (K : S3DConsts) (self : OmapLayer)
    (f : S3DSurfaceFlinger) (l : Nat) (hl : l ∈ f.activeLayers) :
    l ∈ (self.lockPageFlip K f).2.2.activeLayers := by
  cases h : switchLayoutType K (s3dTypeByte self.mCurrentLayout) with
  | none => rw [lockPageFlip_of_none h]; exact hl
  | some t =>
    rw [lockPageFlip_trace_of_some h]
    split_ifs
    · exact (mem_addS3DLayer_l f self.id l).2 (Or.inr hl)
    · exact hl

theorem remove_not_mem_drawWithOpenGL (E : DrawEnv) (self : OmapLayer) (f : S3DSurfaceFlinger)
    (clip : Region) (l : Nat) : Ev.removeS3DLayer_l l ∉ (self.drawWithOpenGL E f clip).1 := by
  cases h : self.bypass f with
  | true => rw [drawWithOpenGL_of_bypass h]; simp
  | false =>
    rw [drawWithOpenGL_of_not_bypass h]
    have h1 : Ev.removeS3DLayer_l l ∉ self.firstState f := by
      rcases firstState_cases self f with h | h | h <;> rw [h] <;> simp
    have h2 : Ev.removeS3DLayer_l l ∉ self.secondDraw E f clip := by
      unfold OmapLayer.secondDraw
      split_ifs <;> simp
    split_ifs <;> simp [filterCalls, restoreCalls, h1, h2]

/-- C17.  When the decode in `lockPageFlip` succeeds with layout type `t`, the
call makes the one call `addS3DLayer_l(this)`, and the layer is inserted into
the active set, exactly when `t` differs from the layout type held before the
call and is not `Mono`; otherwise it makes no call and the active set is
unchanged.  `lockPageFlip` never calls `removeS3DLayer_l` and never takes a
layer out of the active set; neither `setConfig` nor `drawWithOpenGL` calls
`removeS3DLayer_l`; `onRemoved` does. -/
theorem lockPageFlip_registration (K : S3DConsts) (self : OmapLayer) (f : S3DSurfaceFlinger)
    (t : S3DLayoutType)
    (h : switchLayoutType K (s3dTypeByte self.mCurrentLayout) = some t) :
    ((self.lockPageFlip K f).1 = [Ev.addS3DLayer_l self.id] ↔
      (t ≠ self.mType ∧ t ≠ eMono)) ∧
    ((t ≠ self.mType ∧ t ≠ eMono) →
      (self.lockPageFlip K f).2.2 = f.addS3DLayer_l self.id ∧
      self.id ∈ (self.lockPageFlip K f).2.2.activeLayers) ∧
    (¬ (t ≠ self.mType ∧ t ≠ eMono) →
      (self.lockPageFlip K f).1 = [] ∧ (self.lockPageFlip K f).2.2 = f) ∧
    (∀ l, Ev.removeS3DLayer_l l ∉ (self.lockPageFlip K f).1) ∧
    (∀ l, l ∈ f.activeLayers → l ∈ (self.lockPageFlip K f).2.2.activeLayers) ∧
    (∀ l ty o m, Ev.removeS3DLayer_l l ∉ (self.setConfig ty o m).1) ∧
    (∀ l E clip, Ev.removeS3DLayer_l l ∉ (self.drawWithOpenGL E f clip).1) ∧
    Ev.removeS3DLayer_l self.id ∈ (self.onRemoved f).1 ∧
    self.id ∉ (self.onRemoved f).2.activeLayers := by
  refine ⟨?_, ?_, ?_, remove_not_mem_lockPageFlip K self f,
    activeLayers_subset_lockPageFlip K self f, ?_,
    fun l E clip => remove_not_mem_drawWithOpenGL E self f clip l, ?_, ?_⟩
  · rw [lockPageFlip_trace_of_some h]
    constructor
    · intro he
      by_contra hc
      rw [if_neg hc] at he
      simp at he
    · intro hc
      rw [if_pos hc]
  · intro hc
    rw [lockPageFlip_trace_of_some h, if_pos hc]
    exact ⟨rfl, (mem_addS3DLayer_l f self.id self.id).2 (Or.inl rfl)⟩
  · intro hc
    rw [lockPageFlip_trace_of_some h, if_neg hc]
    exact ⟨rfl, rfl⟩
  · intro l ty o m
    simp [OmapLayer.setConfig]
  · simp [OmapLayer.onRemoved]
  · simp [OmapLayer.onRemoved, mem_removeS3DLayer_l]

/-- C17 at the sample constants: a fresh layer decoding `TopBottom` registers
itself once. -/
theorem lockPageFlip_registration_witness :
    ((sampleLayer eMono eLeftViewFirst eRenderStereo 0x00020000).lockPageFlip sampleConsts
        (sampleFlinger .Default .eDrawingS3DLeft)).1 = [Ev.addS3DLayer_l 7] :=
  (lockPageFlip_registration sampleConsts
    (sampleLayer eMono eLeftViewFirst eRenderStereo 0x00020000)
    (sampleFlinger .Default .eDrawingS3DLeft) eTopBottom (by decide)).1.2
    ⟨by decide, by decide⟩

/-- C18.  For every `(type, order, mode)` and every prior layer state,
`setConfig` returns, and afterwards the stored layout type, view order and
render mode are the three arguments, the sequence counter is one greater than
before modulo `2 ^ 32`, exactly one `requestTransaction()` has been made, every
other member of the layer is as before, and the state of `S3DSurfaceFlinger`
(active layers, `currentEye`, output format) is unchanged. -/
theorem setConfig_effect (self : OmapLayer) (type : S3DLayoutType) (order : S3DLayoutOrder)
    (mode : S3DRenderMode) (f : S3DSurfaceFlinger) :
    (self.setConfig type order mode).2.config = (type, order, mode) ∧
    (self.setConfig type order mode).2.sequence = (self.sequence + 1) % 2 ^ 32 ∧
    (self.setConfig type order mode).1 = [Ev.requestTransaction] ∧
    (self.setConfig type order mode).2 =
      { self with mType := type, mViewOrder := order, mRenderMode := mode,
                  sequence := (self.sequence + 1) % 2 ^ 32 } ∧
    (self.setConfig type order mode).2.id = self.id ∧
    (self.setConfig type order mode).2.mCurrentLayout = self.mCurrentLayout ∧
    (self.setConfig type order mode).2.alpha = self.alpha ∧
    (self.setConfig type order mode).2.mPremultipliedAlpha = self.mPremultipliedAlpha ∧
    (self.setConfig type order mode).2.isOpaque = self.isOpaque ∧
    f.replay (self.setConfig type order mode).1 = f :=
  ⟨rfl, rfl, rfl, rfl, rfl, rfl, rfl, rfl, rfl, rfl⟩

/-- C20.  After every `lockPageFlip` whose layout-type byte is accepted
(`SideBySide`, `TopBottom`, `RowInterleaved` or `ColInterleaved`), the stored
view order is `eLeftViewFirst` for every value of the view-order byte: the
layer after the call is the one the statement under `default:` produces from
the one the statement under the two case labels produced, the latter holds the
decoded value (`eRightViewFirst` for its byte, the two labels being distinct),
and the former overwrites it with `eLeftViewFirst`. -/
theorem lockPageFlip_order_fallthrough (K : S3DConsts) (self : OmapLayer)
    (f : S3DSurfaceFlinger)
    (hacc : ∃ t, t ≠ eMono ∧ s3dTypeByte self.mCurrentLayout = K.typeValue t) :
    (self.lockPageFlip K f).2.1.mViewOrder = eLeftViewFirst ∧
    (∃ t, switchLayoutType K (s3dTypeByte self.mCurrentLayout) = some t ∧
      (self.lockPageFlip K f).2.1 =
        orderDefaultBody
          (orderCaseBody K (s3dOrderByte self.mCurrentLayout) { self with mType := t })) ∧
    (∀ x : OmapLayer, K.orderValue eLeftViewFirst ≠ K.orderValue eRightViewFirst →
      (orderCaseBody K (K.orderValue eRightViewFirst) x).mViewOrder = eRightViewFirst ∧
      (orderCaseBody K (K.orderValue eLeftViewFirst) x).mViewOrder = eLeftViewFirst) ∧
    (∀ x : OmapLayer, (orderDefaultBody x).mViewOrder = eLeftViewFirst) := by
  obtain ⟨t0, ht0, hb⟩ := hacc
  have hs : switchLayoutType K (s3dTypeByte self.mCurrentLayout) ≠ none := by
    intro hn
    exact (switchLayoutType_eq_none_iff K _).1 hn t0 ht0 hb
  cases hc : switchLayoutType K (s3dTypeByte self.mCurrentLayout) with
  | none => exact absurd hc hs
  | some t =>
    refine ⟨?_, ⟨t, rfl, ?_⟩, ?_, fun x => rfl⟩
    · rw [lockPageFlip_of_some hc]
    · rw [lockPageFlip_of_some hc, orderBodies_eq]
    · intro x hne
      unfold orderCaseBody
      constructor
      · rw [if_neg (fun h => hne h.symm), if_pos rfl]
      · rw [if_pos rfl]

/-- C20 at the sample constants: layout-type byte `SideBySide`, view-order
byte `eRightViewFirst`, on a layer holding `RightFirst`; the stored view order
becomes `eLeftViewFirst`. -/
theorem lockPageFlip_order_fallthrough_witness :
    s3dOrderByte 0x01010000 = sampleConsts.orderValue eRightViewFirst ∧
    ((sampleLayer eMono eRightViewFirst eRenderStereo 0x01010000).lockPageFlip sampleConsts
        (sampleFlinger .Default .eDrawingS3DLeft)).2.1.mViewOrder = eLeftViewFirst :=
  ⟨by decide,
   (lockPageFlip_order_fallthrough sampleConsts
    (sampleLayer eMono eRightViewFirst eRenderStereo 0x01010000)
    (sampleFlinger .Default .eDrawingS3DLeft) ⟨eSideBySide, by decide, by decide⟩).1⟩

end Omap
